import Mathlib

/-!
Verification of the ESXi PERCCLI exporter (src/main.py) against its
natural-language specification.

The development is a shallow embedding of the Python source:

* Python `dict` objects (insertion-ordered, unique keys) are modelled as
  association lists `List (String × α)` with `dget` (lookup) and
  `dictInsert` (assignment: update in place, or append a fresh key).
* The SMART hex decoder `PercMetrics.parse_smart_data` is modelled by
  `parse_smart_data` below, with the scanning loop `parseLoopF` written
  with an explicit fuel argument.  The entry point `parseLoop` supplies
  fuel `b.length + 1`, which is proven sufficient (the loop advances the
  index by 11 or 1 each iteration, see the termination theorem).
* Fallible remote calls (`_run_perccli_command`, `run_remote_cmd`) are
  modelled as `Except String` values carried by a `World` record; a
  raised Python exception is `Except.error`.
-/

deriving instance DecidableEq for Except

namespace Esxi

/-- Lookup in a Python-dict model: first pair whose key matches. -/
def dget {α : Type} : List (String × α) → String → Option α
  | [], _ => none
  | p :: rest, k => if p.1 = k then some p.2 else dget rest k

/-- Python dict assignment `d[k] = v`: replace the value of an existing
key in place, otherwise append the new key at the end (insertion order). -/
def dictInsert {α : Type} : List (String × α) → String → α → List (String × α)
  | [], k, v => [(k, v)]
  | p :: rest, k, v => if p.1 = k then (k, v) :: rest else p :: dictInsert rest k v

/-- Keys of a dict model, in order. -/
def dictKeys {α : Type} (m : List (String × α)) : List String := m.map Prod.fst

theorem dget_dictInsert_self {α : Type} (m : List (String × α)) (k : String) (v : α) :
    dget (dictInsert m k v) k = some v := by
  induction m with
  | nil => simp [dictInsert, dget]
  | cons p rest ih =>
    by_cases h : p.1 = k
    · simp [dictInsert, h, dget]
    · simp [dictInsert, h, dget, ih]

theorem dget_dictInsert_ne {α : Type} (m : List (String × α)) {k k' : String} (v : α)
    (h : k' ≠ k) : dget (dictInsert m k' v) k = dget m k := by
  induction m with
  | nil => simp [dictInsert, dget, h]
  | cons p rest ih =>
    by_cases hp : p.1 = k'
    · have hpk : p.1 ≠ k := by rw [hp]; exact h
      simp [dictInsert, hp, dget, h, hpk]
    · by_cases hpk : p.1 = k
      · simp [dictInsert, hp, dget, hpk, Ne.symm h]
      · simp [dictInsert, hp, dget, hpk, ih]

theorem dictKeys_dictInsert_mem {α : Type} :
    ∀ (m : List (String × α)) (k : String) (v : α), k ∈ dictKeys m →
      dictKeys (dictInsert m k v) = dictKeys m
  | [], k, v, h => by simp [dictKeys] at h
  | p :: rest, k, v, h => by
    by_cases hp : p.1 = k
    · simp [dictInsert, hp, dictKeys]
    · have h' : k ∈ dictKeys rest := by
        rcases (by simpa [dictKeys] using h : k = p.1 ∨ k ∈ dictKeys rest) with h1 | h1
        · exact absurd h1.symm hp
        · exact h1
      have ih := dictKeys_dictInsert_mem rest k v h'
      simp [dictInsert, hp, dictKeys] at ih ⊢
      exact ih

theorem dictKeys_dictInsert_not_mem {α : Type} :
    ∀ (m : List (String × α)) (k : String) (v : α), k ∉ dictKeys m →
      dictKeys (dictInsert m k v) = dictKeys m ++ [k]
  | [], k, v, _ => by simp [dictInsert, dictKeys]
  | p :: rest, k, v, h => by
    have hp : p.1 ≠ k := by
      intro hk; exact h (by simp [dictKeys, hk])
    have h' : k ∉ dictKeys rest := by
      intro hk; exact h (by simp [dictKeys]; exact Or.inr (by simpa [dictKeys] using hk))
    have ih := dictKeys_dictInsert_not_mem rest k v h'
    simp [dictInsert, hp, dictKeys] at ih ⊢
    exact ih

theorem length_dictInsert_not_mem {α : Type} :
    ∀ (m : List (String × α)) (k : String) (v : α), k ∉ dictKeys m →
      (dictInsert m k v).length = m.length + 1
  | [], _, _, _ => by simp [dictInsert]
  | p :: rest, k, v, h => by
    have hp : p.1 ≠ k := by
      intro hk; exact h (by simp [dictKeys, hk])
    have h' : k ∉ dictKeys rest := by
      intro hk; exact h (by simp [dictKeys]; exact Or.inr (by simpa [dictKeys] using hk))
    have ih := length_dictInsert_not_mem rest k v h'
    simp [dictInsert, hp]
    exact ih

theorem dictKeys_nodup_dictInsert {α : Type} (m : List (String × α)) (k : String) (v : α)
    (h : (dictKeys m).Nodup) : (dictKeys (dictInsert m k v)).Nodup := by
  by_cases hk : k ∈ dictKeys m
  · rw [dictKeys_dictInsert_mem m k v hk]; exact h
  · rw [dictKeys_dictInsert_not_mem m k v hk]
    simp [List.nodup_append, h, hk]

/-! ### SMART hex decoder (`PercMetrics.parse_smart_data`, src/main.py lines 81-134) -/

/-- Characters kept by `re.sub(r'[^0-9a-fA-F]', '', smart_data_hex)`. -/
def isHexChar (c : Char) : Bool :=
  (('0' ≤ c ∧ c ≤ '9') ∨ ('a' ≤ c ∧ c ≤ 'f') ∨ ('A' ≤ c ∧ c ≤ 'F'))

/-- Value of one hex digit, as `int(c, 16)` computes it on the characters
kept by `isHexChar`. -/
def hexVal (c : Char) : Nat :=
  if '0' ≤ c ∧ c ≤ '9' then c.toNat - 48
  else if 'a' ≤ c ∧ c ≤ 'f' then c.toNat - 87
  else c.toNat - 55

/-- Conversion of the cleaned hex string to a byte list: the loop
`for i in range(0, len(hex_clean), 2): int(hex_clean[i:i+2], 16)`.
A trailing lone digit yields a single-digit byte, as in Python. -/
def toBytes : List Char → List Nat
  | [] => []
  | [c] => [hexVal c]
  | c1 :: c2 :: rest => (16 * hexVal c1 + hexVal c2) :: toBytes rest

/-- Lowercase hex digit used by the `f"unknown_{attr_id:02x}"` fallback. -/
def hexDigit (n : Nat) : Char :=
  if n < 10 then Char.ofNat (48 + n) else Char.ofNat (87 + n)

/-- Two-digit lowercase hex rendering `f"{id:02x}"` of a byte (`id ≤ 255`,
which the scan loop guarantees). -/
def hex2 (n : Nat) : String := String.mk [hexDigit (n / 16), hexDigit (n % 16)]

/-- The static `attr_name_map` of `parse_smart_data` (src/main.py lines 112-122). -/
def attr_name_map : List (Nat × String) :=
  [(0x01, "raw_read_error_rate"), (0x03, "spin_up_time"), (0x04, "start_stop_count"),
   (0x05, "reallocated_sector_count"), (0x07, "seek_error_rate"), (0x09, "power_on_hours"),
   (0x0C, "power_cycle_count"), (0x53, "initial_bad_block_count"),
   (0xB1, "wear_leveling_count"), (0xB3, "used_reserved_block_count_total"),
   (0xB4, "unused_reserved_block_count_total"), (0xB5, "program_fail_count_total"),
   (0xB6, "erase_fail_count_total"), (0xB7, "runtime_bad_block"), (0xB8, "end_to_end_error"),
   (0xBB, "uncorrectable_error_count"), (0xBE, "airflow_temperature_celsius"),
   (0xC2, "temperature_celsius"), (0xC3, "hardware_ecc_recovered"),
   (0xC5, "current_pending_sector_count"), (0xC6, "uncorrectable_sector_count"),
   (0xC7, "udma_crc_error_count"), (0xCA, "data_address_mark_errors"),
   (0xEB, "por_recovery_count"), (0xF1, "total_host_writes"), (0xF2, "total_host_reads"),
   (0xF3, "total_host_writes_expanded"), (0xF4, "total_host_reads_expanded"),
   (0xF5, "remaining_rated_write_endurance"), (0xF6, "cumulative_host_sectors_written"),
   (0xF7, "host_program_page_count"), (0xFB, "minimum_spares_remaining")]

/-- `attr_name_map.get(attr_id, f"unknown_{attr_id:02x}")`. -/
def attrName (id : Nat) : String :=
  match attr_name_map.find? (fun p => p.1 == id) with
  | some p => p.2
  | none => "unknown_" ++ hex2 id

/-- Little-endian accumulation
`for k, byte_val in enumerate(raw_value_bytes): raw_value |= byte_val << (k * 8)`
over the six bytes at offsets `i+5 .. i+10`. -/
def rawValue (b : List Nat) (i : Nat) : Nat :=
  (List.range 6).foldl (fun raw k => raw ||| (b.getD (i + 5 + k) 0 <<< (k * 8))) 0

/-- The record-scanning `while` loop of `parse_smart_data`, with explicit
fuel (one unit per iteration).  Result: the attribute dict, the final scan
index, and the number of iterations performed.  The per-iteration
`try/except (ValueError, IndexError)` of the source can never fire: the
guard `i + 10 < len(byte_array)` keeps every access in bounds, so it is
not represented. -/
def parseLoopF : Nat → List Nat → Nat → List (String × Nat) →
    (List (String × Nat)) × Nat × Nat
  | 0, _, i, acc => (acc, i, 0)
  | fuel + 1, b, i, acc =>
    if i + 10 < b.length then
      -- attr_id = byte_array[i]; bytes i+3 (normalized) and i+4 (worst) are
      -- read by the source but not surfaced
      if 1 ≤ b.getD i 0 ∧ b.getD i 0 ≤ 255 then
        ((parseLoopF fuel b (i + 11) (dictInsert acc (attrName (b.getD i 0))
            (if b.getD i 0 = 0xC2 then b.getD (i + 5) 0 else rawValue b i))).1,
         (parseLoopF fuel b (i + 11) (dictInsert acc (attrName (b.getD i 0))
            (if b.getD i 0 = 0xC2 then b.getD (i + 5) 0 else rawValue b i))).2.1,
         (parseLoopF fuel b (i + 11) (dictInsert acc (attrName (b.getD i 0))
            (if b.getD i 0 = 0xC2 then b.getD (i + 5) 0 else rawValue b i))).2.2 + 1)
      else
        ((parseLoopF fuel b (i + 1) acc).1,
         (parseLoopF fuel b (i + 1) acc).2.1,
         (parseLoopF fuel b (i + 1) acc).2.2 + 1)
    else (acc, i, 0)

/-- The scan loop with enough fuel to run to completion (the loop advances
the index every iteration, so `b.length + 1` units are never exhausted;
see the termination theorem). -/
def parseLoop (b : List Nat) (i : Nat) (acc : List (String × Nat)) :
    (List (String × Nat)) × Nat × Nat :=
  parseLoopF (b.length + 1) b i acc

/-- The header test of src/main.py line 90, with Python's `and`/`or`
precedence and short-circuit evaluation: on a list shorter than two bytes
the second disjunct's subscripts can raise `IndexError` (caught by the
outer handler, which returns an empty dict). -/
def computeStart : List Nat → Except String Nat
  | [] => .error "IndexError"
  | [b0] => if b0 = 0x2f then .error "IndexError" else .ok 0
  | b0 :: b1 :: _ =>
    if (b0 = 0x01 ∧ b1 = 0x00) ∨ (b0 = 0x2f ∧ b1 = 0x00) then .ok 2 else .ok 0

/-- Byte-level body of `parse_smart_data`: header handling then the scan
loop; an exception inside is caught and yields the empty dict. -/
def parseBytes (b : List Nat) : (List (String × Nat)) × Nat × Nat :=
  match computeStart b with
  | .error _ => ([], 0, 0)
  | .ok s => parseLoop b s []

/-- `PercMetrics.parse_smart_data` (src/main.py lines 81-134). -/
def parse_smart_data (s : String) : List (String × Nat) :=
  (parseBytes (toBytes (s.data.filter isHexChar))).1

/-- Sum form of the six-byte little-endian raw value of a record `r`
(bytes 5-10): the reconstruction the spec describes. -/
def le48 (r : List Nat) : Nat :=
  (List.range 6).foldl (fun acc k => acc + r.getD (5 + k) 0 * 256 ^ k) 0

/-- Per-record update applied by the scan loop to the attribute dict:
name from the id table, value from byte 5 alone for id `0xC2` and from
the full little-endian reconstruction otherwise. -/
def recordStep (m : List (String × Nat)) (r : List Nat) : List (String × Nat) :=
  dictInsert m (attrName (r.getD 0 0)) (if r.getD 0 0 = 0xC2 then r.getD 5 0 else le48 r)

/-- Well-formedness of an 11-byte record as claim C3 assumes it: exactly
11 bytes, attribute id in `[1, 255]`, every byte an 8-bit value. -/
def recordWF (r : List Nat) : Prop :=
  r.length = 11 ∧ 1 ≤ r.getD 0 0 ∧ r.getD 0 0 ≤ 255 ∧ ∀ x ∈ r, x < 256

/-! ### Lemmas about the scan loop -/

/-- Bitwise-or of a value with a disjoint shifted value is addition. -/
theorem lor_add_of_lt {x p : Nat} (y n : Nat) (hp : p = 2 ^ n) (h : x < p) :
    x ||| y * p = x + y * p := by
  subst hp
  rw [Nat.lor_comm, Nat.mul_comm y (2 ^ n), ← Nat.mul_add_lt_is_or h y]
  exact Nat.add_comm _ _

/-- The six-byte little-endian or-accumulation over 8-bit bytes equals
plain positional addition. -/
theorem lor6_eq_sum (a0 a1 a2 a3 a4 a5 : Nat) (h0 : a0 < 256) (h1 : a1 < 256)
    (h2 : a2 < 256) (h3 : a3 < 256) (h4 : a4 < 256) (_h5 : a5 < 256) :
    (((((0 ||| a0 <<< (0 * 8)) ||| a1 <<< (1 * 8)) ||| a2 <<< (2 * 8)) |||
        a3 <<< (3 * 8)) ||| a4 <<< (4 * 8)) ||| a5 <<< (5 * 8) =
      a0 + a1 * 256 + a2 * 65536 + a3 * 16777216 + a4 * 4294967296 +
        a5 * 1099511627776 := by
  have s0 : a0 <<< (0 * 8) = a0 := by simp
  have s1 : a1 <<< (1 * 8) = a1 * 256 := by simp [Nat.shiftLeft_eq]
  have s2 : a2 <<< (2 * 8) = a2 * 65536 := by simp [Nat.shiftLeft_eq]
  have s3 : a3 <<< (3 * 8) = a3 * 16777216 := by simp [Nat.shiftLeft_eq]
  have s4 : a4 <<< (4 * 8) = a4 * 4294967296 := by simp [Nat.shiftLeft_eq]
  have s5 : a5 <<< (5 * 8) = a5 * 1099511627776 := by simp [Nat.shiftLeft_eq]
  rw [s0, s1, s2, s3, s4, s5, Nat.zero_or,
    lor_add_of_lt a1 8 (by norm_num) h0,
    lor_add_of_lt a2 16 (by norm_num) (by omega),
    lor_add_of_lt a3 24 (by norm_num) (by omega),
    lor_add_of_lt a4 32 (by norm_num) (by omega),
    lor_add_of_lt a5 40 (by norm_num) (by omega)]

/-- Reading through `drop`: byte `j` of the record at offset `i`. -/
theorem getD_at_offset (b r t : List Nat) (i : Nat) (hdrop : b.drop i = r ++ t) :
    ∀ j, j < r.length → b.getD (i + j) 0 = r.getD j 0 := by
  intro j hj
  have h1 : (b.drop i)[j]? = b[i + j]? := List.getElem?_drop b i j
  rw [hdrop] at h1
  have h2 : (r ++ t)[j]? = r[j]? := List.getElem?_append_left hj
  simp [List.getD_eq_getElem?_getD, ← h1, h2]

/-- Bytes of a record are 8-bit values at every in-bounds offset. -/
theorem record_byte_lt (r : List Nat) (hbytes : ∀ x ∈ r, x < 256) :
    ∀ j, j < r.length → r.getD j 0 < 256 := by
  intro j hj
  have : r[j]? = some r[j] := List.getElem?_eq_getElem hj
  have hm : r[j] ∈ r := List.getElem_mem hj
  simp [List.getD_eq_getElem?_getD, this]
  exact hbytes _ hm

/-- On a well-formed record, the loop's or-shift accumulation computes the
six-byte little-endian sum `le48`. -/
theorem rawValue_eq_le48 (b r t : List Nat) (i : Nat) (hdrop : b.drop i = r ++ t)
    (hlen : r.length = 11) (hbytes : ∀ x ∈ r, x < 256) :
    rawValue b i = le48 r := by
  have hget : ∀ j, j < 6 → b.getD (i + 5 + j) 0 = r.getD (5 + j) 0 := by
    intro j hj
    have := getD_at_offset b r t i hdrop (5 + j) (by omega)
    rw [← Nat.add_assoc] at this
    exact this
  have hlt : ∀ j, j < 6 → r.getD (5 + j) 0 < 256 := fun j hj =>
    record_byte_lt r hbytes (5 + j) (by omega)
  have hr : (List.range 6) = [0, 1, 2, 3, 4, 5] := by decide
  rw [rawValue, le48, hr]
  simp only [List.foldl_cons, List.foldl_nil]
  rw [hget 0 (by omega), hget 1 (by omega), hget 2 (by omega), hget 3 (by omega),
    hget 4 (by omega), hget 5 (by omega)]
  rw [lor6_eq_sum _ _ _ _ _ _ (hlt 0 (by omega)) (hlt 1 (by omega)) (hlt 2 (by omega))
    (hlt 3 (by omega)) (hlt 4 (by omega)) (hlt 5 (by omega))]
  norm_num

/-- Fuel irrelevance: any two fuel values at least `b.length - i` give the
same loop result — the loop terminates within `b.length - i` iterations. -/
theorem parseLoopF_congr : ∀ (f g : Nat) (b : List Nat) (i : Nat)
    (acc : List (String × Nat)), b.length - i ≤ f → b.length - i ≤ g →
    parseLoopF f b i acc = parseLoopF g b i acc := by
  intro f
  induction f with
  | zero =>
    intro g b i acc hf hg
    have hguard : ¬ (i + 10 < b.length) := by omega
    cases g with
    | zero => rfl
    | succ g => simp [parseLoopF, hguard]
  | succ f ih =>
    intro g b i acc hf hg
    cases g with
    | zero =>
      have hguard : ¬ (i + 10 < b.length) := by omega
      simp [parseLoopF, hguard]
    | succ g =>
      by_cases hguard : i + 10 < b.length
      · simp only [parseLoopF, if_pos hguard]
        by_cases hid : 1 ≤ b.getD i 0 ∧ b.getD i 0 ≤ 255
        · simp only [if_pos hid]
          rw [ih g b (i + 11) _ (by omega) (by omega)]
        · simp only [if_neg hid]
          rw [ih g b (i + 1) acc (by omega) (by omega)]
      · simp only [parseLoopF, if_neg hguard]

theorem hexDigit_inj {a b : Nat} (ha : a < 16) (hb : b < 16)
    (h : hexDigit a = hexDigit b) : a = b := by
  have key : ∀ x y : Fin 16, hexDigit x.val = hexDigit y.val → x = y := by decide
  have := key ⟨a, ha⟩ ⟨b, hb⟩ h
  exact congrArg Fin.val this

theorem hex2_inj {i j : Nat} (hi : i ≤ 255) (hj : j ≤ 255)
    (h : hex2 i = hex2 j) : i = j := by
  have hdata : ([hexDigit (i / 16), hexDigit (i % 16)] : List Char) =
      [hexDigit (j / 16), hexDigit (j % 16)] := congrArg String.data h
  have h1 : hexDigit (i / 16) = hexDigit (j / 16) := by
    simpa using congrArg (fun l => l.headI) hdata
  have h2 : hexDigit (i % 16) = hexDigit (j % 16) := by
    simpa using congrArg (fun l => l.tail.headI) hdata
  have e1 : i / 16 = j / 16 := hexDigit_inj (by omega) (by omega) h1
  have e2 : i % 16 = j % 16 := hexDigit_inj (by omega) (by omega) h2
  omega

/-- In the static id table, names determine ids. -/
theorem attr_table_names_inj : ∀ p ∈ attr_name_map, ∀ q ∈ attr_name_map,
    p.2 = q.2 → p.1 = q.1 := by decide

/-- No name in the static id table has the length 10 of a fallback
`unknown_xx` name. -/
theorem attr_table_no_len10 : ∀ p ∈ attr_name_map, p.2.length ≠ 10 := by decide

theorem unknown_name_length (id : Nat) : ("unknown_" ++ hex2 id).length = 10 := by
  rw [String.length_append]
  rfl

/-- The id-to-name assignment is injective on the byte range the scan loop
admits: known names are pairwise distinct, fallback names encode the id,
and the two families never collide (no table name has length 10). -/
theorem attrName_inj {i j : Nat} (hi : i ≤ 255) (hj : j ≤ 255)
    (h : attrName i = attrName j) : i = j := by
  unfold attrName at h
  cases hfi : attr_name_map.find? (fun p => p.1 == i) with
  | some p =>
    cases hfj : attr_name_map.find? (fun p => p.1 == j) with
    | some q =>
      rw [hfi, hfj] at h
      simp only at h
      have hpi : p.1 = i := by simpa using List.find?_some hfi
      have hqj : q.1 = j := by simpa using List.find?_some hfj
      have := attr_table_names_inj p (List.mem_of_find?_eq_some hfi) q
        (List.mem_of_find?_eq_some hfj) h
      omega
    | none =>
      rw [hfi, hfj] at h
      simp only at h
      have hl := attr_table_no_len10 p (List.mem_of_find?_eq_some hfi)
      rw [h, unknown_name_length] at hl
      exact absurd rfl hl
  | none =>
    cases hfj : attr_name_map.find? (fun p => p.1 == j) with
    | some q =>
      rw [hfi, hfj] at h
      simp only at h
      have hl := attr_table_no_len10 q (List.mem_of_find?_eq_some hfj)
      rw [← h, unknown_name_length] at hl
      exact absurd rfl hl
    | none =>
      rw [hfi, hfj] at h
      simp only at h
      have hdata : ("unknown_".data ++ (hex2 i).data : List Char) =
          "unknown_".data ++ (hex2 j).data := by
        have := congrArg String.data h
        simpa [String.data_append] using this
      have hde : (hex2 i).data = (hex2 j).data := List.append_cancel_left hdata
      exact hex2_inj hi hj (String.ext hde)

/-- One unfolding of the scan loop at full fuel. -/
theorem parseLoop_unfold (b : List Nat) (i : Nat) (acc : List (String × Nat)) :
    parseLoop b i acc =
      if i + 10 < b.length then
        if 1 ≤ b.getD i 0 ∧ b.getD i 0 ≤ 255 then
          ((parseLoop b (i + 11) (dictInsert acc (attrName (b.getD i 0))
              (if b.getD i 0 = 0xC2 then b.getD (i + 5) 0 else rawValue b i))).1,
           (parseLoop b (i + 11) (dictInsert acc (attrName (b.getD i 0))
              (if b.getD i 0 = 0xC2 then b.getD (i + 5) 0 else rawValue b i))).2.1,
           (parseLoop b (i + 11) (dictInsert acc (attrName (b.getD i 0))
              (if b.getD i 0 = 0xC2 then b.getD (i + 5) 0 else rawValue b i))).2.2 + 1)
        else
          ((parseLoop b (i + 1) acc).1, (parseLoop b (i + 1) acc).2.1,
           (parseLoop b (i + 1) acc).2.2 + 1)
      else (acc, i, 0) := by
  show parseLoopF (b.length + 1) b i acc = _
  rw [parseLoopF]
  by_cases hguard : i + 10 < b.length
  · simp only [if_pos hguard]
    by_cases hid : 1 ≤ b.getD i 0 ∧ b.getD i 0 ≤ 255
    · simp only [if_pos hid]
      rw [parseLoopF_congr (b.length) (b.length + 1) b (i + 11) _ (by omega) (by omega)]
      rfl
    · simp only [if_neg hid]
      rw [parseLoopF_congr (b.length) (b.length + 1) b (i + 1) acc (by omega) (by omega)]
      rfl
  · simp only [if_neg hguard]

/-- The scan loop over a stream that is a concatenation of well-formed
records: one iteration per record, each applying `recordStep`. -/
theorem parseLoop_join : ∀ (rs : List (List Nat)) (b : List Nat) (s : Nat)
    (acc : List (String × Nat)), b.drop s = rs.flatten → (∀ r ∈ rs, recordWF r) →
    parseLoop b s acc = (rs.foldl recordStep acc, s + 11 * rs.length, rs.length)
  | [], b, s, acc, hdrop, _ => by
    have hlen : b.length ≤ s := List.drop_eq_nil_iff.mp (by simpa using hdrop)
    rw [parseLoop_unfold]
    have hg : ¬ (s + 10 < b.length) := by omega
    simp [hg]
  | r :: rest, b, s, acc, hdrop, hwf => by
    obtain ⟨hlen11, hid1, hid255, hbytes⟩ := hwf r (by simp)
    have hdrop' : b.drop s = r ++ rest.flatten := by simpa using hdrop
    have hJ : b.length - s = 11 + rest.flatten.length := by
      have := congrArg List.length hdrop'
      simpa [hlen11] using this
    have hg : s + 10 < b.length := by omega
    have hid : b.getD s 0 = r.getD 0 0 := by
      have := getD_at_offset b r rest.flatten s hdrop' 0 (by omega)
      simpa using this
    have h5 : b.getD (s + 5) 0 = r.getD 5 0 :=
      getD_at_offset b r rest.flatten s hdrop' 5 (by omega)
    have hraw : rawValue b s = le48 r :=
      rawValue_eq_le48 b r rest.flatten s hdrop' hlen11 hbytes
    have hdropnext : b.drop (s + 11) = rest.flatten := by
      have h1 : b.drop (s + 11) = (b.drop s).drop 11 := by
        rw [List.drop_drop]
      rw [h1, hdrop', List.drop_left' hlen11]
    have ih := parseLoop_join rest b (s + 11)
      (dictInsert acc (attrName (r.getD 0 0))
        (if r.getD 0 0 = 0xC2 then r.getD 5 0 else le48 r)) hdropnext
      (fun r' hr' => hwf r' (by simp [hr']))
    rw [parseLoop_unfold, if_pos hg, hid, if_pos ⟨hid1, hid255⟩, h5, hraw, ih]
    simp only [List.foldl_cons, List.length_cons, recordStep]
    have harith : s + 11 + 11 * rest.length = s + 11 * (rest.length + 1) := by ring
    rw [harith]

/-- With pairwise-distinct ids and fresh names, each record adds exactly
one attribute. -/
theorem foldl_recordStep_length : ∀ (rs : List (List Nat)) (m : List (String × Nat)),
    (∀ r ∈ rs, recordWF r) → ((rs.map (fun r => r.getD 0 0)).Nodup) →
    (∀ r ∈ rs, attrName (r.getD 0 0) ∉ dictKeys m) →
    (rs.foldl recordStep m).length = m.length + rs.length
  | [], m, _, _, _ => by simp
  | r :: rest, m, hwf, hnd, hfresh => by
    have hfr : attrName (r.getD 0 0) ∉ dictKeys m := hfresh r (by simp)
    rw [List.map_cons] at hnd
    have hndc := List.nodup_cons.mp hnd
    have hne : ∀ r' ∈ rest, r'.getD 0 0 ≠ r.getD 0 0 := by
      intro r' hr' he
      exact hndc.1 (List.mem_map.mpr ⟨r', hr', he⟩)
    have hfresh' : ∀ r' ∈ rest, attrName (r'.getD 0 0) ∉ dictKeys (recordStep m r) := by
      intro r' hr'
      rw [recordStep, dictKeys_dictInsert_not_mem m _ _ hfr]
      intro hmem
      rcases List.mem_append.mp hmem with hmem | hmem
      · exact hfresh r' (by simp [hr']) hmem
      · have heq : attrName (r'.getD 0 0) = attrName (r.getD 0 0) :=
          List.mem_singleton.mp hmem
        obtain ⟨_, _, h255', _⟩ := hwf r' (by simp [hr'])
        obtain ⟨_, _, h255, _⟩ := hwf r (by simp)
        exact hne r' hr' (attrName_inj h255' h255 heq)
    have ih := foldl_recordStep_length rest (recordStep m r)
      (fun r' h => hwf r' (by simp [h])) hndc.2 hfresh'
    rw [List.foldl_cons, ih, recordStep, length_dictInsert_not_mem m _ _ hfr,
      List.length_cons]
    omega

/-- The keys of the attribute dict stay duplicate-free through the loop. -/
theorem parseLoopF_keys_nodup : ∀ (fuel : Nat) (b : List Nat) (i : Nat)
    (acc : List (String × Nat)), (dictKeys acc).Nodup →
    (dictKeys (parseLoopF fuel b i acc).1).Nodup
  | 0, _, _, _, h => h
  | fuel + 1, b, i, acc, h => by
    by_cases hg : i + 10 < b.length
    · by_cases hid : 1 ≤ b.getD i 0 ∧ b.getD i 0 ≤ 255
      · simp only [parseLoopF, if_pos hg, if_pos hid]
        exact parseLoopF_keys_nodup fuel b (i + 11) _
          (dictKeys_nodup_dictInsert acc _ _ h)
      · simp only [parseLoopF, if_pos hg, if_neg hid]
        exact parseLoopF_keys_nodup fuel b (i + 1) acc h
    · simp only [parseLoopF, if_neg hg]
      exact h

/-! ### Claims about the SMART hex decoder -/

/-- C2: on every input string the decoder returns a well-formed mapping
(duplicate-free keys); inputs on which the header test raises — such as
the empty string — fall through the outer exception handler to the empty
mapping. -/
theorem C2_total_mapping :
    (∀ s : String, (dictKeys (parse_smart_data s)).Nodup) ∧
    (∀ b : List Nat, (∀ e, computeStart b ≠ .error e) ∨ parseBytes b = ([], 0, 0)) ∧
    parse_smart_data "" = [] := by
  refine ⟨?_, ?_, by decide⟩
  · intro s
    rw [parse_smart_data]
    rcases hcs : computeStart (toBytes (s.data.filter isHexChar)) with e | st
    · simp [parseBytes, hcs, dictKeys]
    · simp only [parseBytes, hcs]
      exact parseLoopF_keys_nodup _ _ _ _ (by simp [dictKeys])
  · intro b
    rcases hcs : computeStart b with e | st
    · exact Or.inr (by simp [parseBytes, hcs])
    · exact Or.inl (by simp [hcs])

/-- C3: a stream that (after the header skip chosen by `computeStart`)
consists of `N` well-formed 11-byte records decodes to the fold of
`recordStep` over those records (so later duplicates of an id overwrite
earlier ones), consumes exactly `11 * N` bytes in `N` iterations, and
yields exactly `N` attributes when the ids are pairwise distinct.  Each
record's value is its six-byte little-endian reconstruction `le48`
(byte 5 alone for id `0xC2`), per `recordStep`. -/
theorem C3_records (b : List Nat) (s : Nat) (rs : List (List Nat))
    (hstart : computeStart b = .ok s) (hdrop : b.drop s = rs.flatten)
    (hwf : ∀ r ∈ rs, recordWF r) :
    parseBytes b = (rs.foldl recordStep [], s + 11 * rs.length, rs.length) ∧
    ((rs.map (fun r => r.getD 0 0)).Nodup →
      (rs.foldl recordStep []).length = rs.length) := by
  constructor
  · rw [parseBytes, hstart]
    exact parseLoop_join rs b s [] hdrop hwf
  · intro hnd
    have := foldl_recordStep_length rs [] hwf hnd (by simp [dictKeys])
    simpa using this

/-- C3 witness: one record with id `0x09` and raw bytes
`64 00 00 00 00 00` decodes to `power_on_hours = 100`, consuming 11 bytes
in one iteration. -/
theorem C3_records_witness :
    computeStart [0x09, 0, 0, 100, 100, 0x64, 0, 0, 0, 0, 0] = .ok 0 ∧
    parseBytes [0x09, 0, 0, 100, 100, 0x64, 0, 0, 0, 0, 0] =
      ([("power_on_hours", 100)], 11, 1) := by
  refine ⟨by decide, ?_⟩
  have h := C3_records [0x09, 0, 0, 100, 100, 0x64, 0, 0, 0, 0, 0] 0
    [[0x09, 0, 0, 100, 100, 0x64, 0, 0, 0, 0, 0]] (by decide) (by decide)
    (by intro r hr; simp at hr; subst hr; refine ⟨by decide, by decide, by decide, by decide⟩)
  rw [h.1]
  decide

/-- C4: whenever the scan loop meets a record whose attribute id is
`0xC2`, it stores `temperature_celsius` with the value of byte offset 5
of that record alone — not the 48-bit reconstruction used for other ids. -/
theorem C4_temperature_byte (b : List Nat) (i : Nat) (acc : List (String × Nat))
    (hg : i + 10 < b.length) (hid : b.getD i 0 = 0xC2) :
    parseLoop b i acc =
      ((parseLoop b (i + 11) (dictInsert acc "temperature_celsius" (b.getD (i + 5) 0))).1,
       (parseLoop b (i + 11) (dictInsert acc "temperature_celsius" (b.getD (i + 5) 0))).2.1,
       (parseLoop b (i + 11) (dictInsert acc "temperature_celsius" (b.getD (i + 5) 0))).2.2 + 1) := by
  have hname : attrName 0xC2 = "temperature_celsius" := by decide
  rw [parseLoop_unfold, if_pos hg, hid]
  rw [if_pos (by decide : (1 : Nat) ≤ 0xC2 ∧ (0xC2 : Nat) ≤ 255)]
  rw [if_pos rfl, hname]

/-- C4 witness: a concrete `0xC2` record whose raw field is
`1E 01 00 00 00 00` decodes to temperature 30 — byte 5 alone — while the
48-bit reconstruction would give 286. -/
theorem C4_temperature_byte_witness :
    parseLoop [0xC2, 0, 0, 100, 100, 30, 1, 0, 0, 0, 0] 0 [] =
      ([("temperature_celsius", 30)], 11, 1) ∧
    rawValue [0xC2, 0, 0, 100, 100, 30, 1, 0, 0, 0, 0] 0 = 286 := by
  constructor
  · have h := C4_temperature_byte [0xC2, 0, 0, 100, 100, 30, 1, 0, 0, 0, 0] 0 []
      (by decide) (by decide)
    rw [h]
    decide
  · decide

/-- Iteration-count and final-index bounds for the scan loop. -/
theorem parseLoopF_bounds : ∀ (fuel : Nat) (b : List Nat) (i : Nat)
    (acc : List (String × Nat)), b.length - i ≤ fuel →
    (parseLoopF fuel b i acc).2.2 ≤ b.length - i ∧
    i + (parseLoopF fuel b i acc).2.2 ≤ (parseLoopF fuel b i acc).2.1 ∧
    (parseLoopF fuel b i acc).2.1 ≤ i + 11 * (parseLoopF fuel b i acc).2.2
  | 0, b, i, acc, _ => by simp [parseLoopF]
  | fuel + 1, b, i, acc, hf => by
    by_cases hg : i + 10 < b.length
    · by_cases hid : 1 ≤ b.getD i 0 ∧ b.getD i 0 ≤ 255
      · have ih := parseLoopF_bounds fuel b (i + 11)
          (dictInsert acc (attrName (b.getD i 0))
            (if b.getD i 0 = 0xC2 then b.getD (i + 5) 0 else rawValue b i)) (by omega)
        simp only [parseLoopF, if_pos hg, if_pos hid]
        omega
      · have ih := parseLoopF_bounds fuel b (i + 1) acc (by omega)
        simp only [parseLoopF, if_pos hg, if_neg hid]
        omega
    · simp [parseLoopF, hg]

/-- C10: the scan loop terminates — any fuel of at least `b.length - i`
computes `parseLoop`, the loop runs at most `b.length - i` iterations,
the final index exceeds the start by between one and eleven units per
iteration, and each single iteration advances the index by exactly 11
(record accepted) or exactly 1 (id rejected). -/
theorem C10_loop_termination (b : List Nat) (i : Nat) (acc : List (String × Nat)) :
    (∀ f, b.length - i ≤ f → parseLoopF f b i acc = parseLoop b i acc) ∧
    (parseLoop b i acc).2.2 ≤ b.length - i ∧
    i + (parseLoop b i acc).2.2 ≤ (parseLoop b i acc).2.1 ∧
    (parseLoop b i acc).2.1 ≤ i + 11 * (parseLoop b i acc).2.2 ∧
    (i + 10 < b.length →
      (if 1 ≤ b.getD i 0 ∧ b.getD i 0 ≤ 255 then
          (parseLoop b i acc).2.1 = (parseLoop b (i + 11) (dictInsert acc
            (attrName (b.getD i 0)) (if b.getD i 0 = 0xC2 then b.getD (i + 5) 0
              else rawValue b i))).2.1 ∧
          (parseLoop b i acc).2.2 = (parseLoop b (i + 11) (dictInsert acc
            (attrName (b.getD i 0)) (if b.getD i 0 = 0xC2 then b.getD (i + 5) 0
              else rawValue b i))).2.2 + 1
        else
          (parseLoop b i acc).2.1 = (parseLoop b (i + 1) acc).2.1 ∧
          (parseLoop b i acc).2.2 = (parseLoop b (i + 1) acc).2.2 + 1)) := by
  have hb := parseLoopF_bounds (b.length + 1) b i acc (by omega)
  refine ⟨fun f hf => parseLoopF_congr f (b.length + 1) b i acc hf (by omega),
    hb.1, hb.2.1, hb.2.2, ?_⟩
  intro hg
  by_cases hid : 1 ≤ b.getD i 0 ∧ b.getD i 0 ≤ 255
  · rw [if_pos hid]
    rw [parseLoop_unfold, if_pos hg, if_pos hid]
    exact ⟨rfl, rfl⟩
  · rw [if_neg hid]
    rw [parseLoop_unfold, if_pos hg, if_neg hid]
    exact ⟨rfl, rfl⟩

/-- C10 witness: a 12-byte stream starting with a rejected id 0 followed
by one accepted record runs in two iterations and ends at index 12. -/
theorem C10_loop_termination_witness :
    parseLoopF 12 [0, 0x09, 0, 0, 100, 100, 0x64, 0, 0, 0, 0, 0] 0 [] =
      parseLoop [0, 0x09, 0, 0, 100, 100, 0x64, 0, 0, 0, 0, 0] 0 [] ∧
    (parseLoop [0, 0x09, 0, 0, 100, 100, 0x64, 0, 0, 0, 0, 0] 0 []).2.2 ≤ 12 ∧
    (parseLoop [0, 0x09, 0, 0, 100, 100, 0x64, 0, 0, 0, 0, 0] 0 []).2.2 =
      (parseLoop [0, 0x09, 0, 0, 100, 100, 0x64, 0, 0, 0, 0, 0] 1 []).2.2 + 1 := by
  have h := C10_loop_termination [0, 0x09, 0, 0, 100, 100, 0x64, 0, 0, 0, 0, 0] 0 []
  refine ⟨h.1 12 (by decide), le_trans h.2.1 (by decide), ?_⟩
  have h5 := h.2.2.2.2 (by decide)
  rw [if_neg (by decide)] at h5
  exact h5.2

/-! ### NVMe smartctl JSON decoder (`parse_smartctl_nvme`, src/main.py lines 136-191)

The JSON report is modelled by `NvmeData`, with numeric values as `Int`
and the `temperature_sensors` array member of the health log as a
separate optional field.  The remote command and `json.loads` are two
fallible stages: an exception in either is an `Except.error`. -/

structure NvmeData where
  serial_number : Option String
  /-- `nvme_smart_health_information_log` (`{}` when absent), numeric members. -/
  smart_log : List (String × Int)
  /-- `temperature_sensors` member of the health log, when present. -/
  temperature_sensors : Option (List Int)
  nvme_total_capacity : Option Int
  /-- present iff `"smart_status" in data and "passed" in data["smart_status"]`. -/
  smart_status_passed : Option Bool

/-- The `attribute_map` of `parse_smartctl_nvme` (src/main.py lines 147-165). -/
def nvme_attribute_map : List (String × String) :=
  [("critical_warning", "critical_warning"),
   ("temperature", "temperature_celsius"),
   ("available_spare", "available_spare_percent"),
   ("available_spare_threshold", "available_spare_threshold_percent"),
   ("percentage_used", "percentage_used"),
   ("data_units_read", "data_units_read"),
   ("data_units_written", "data_units_written"),
   ("host_reads", "host_reads"),
   ("host_writes", "host_writes"),
   ("controller_busy_time", "controller_busy_time_minutes"),
   ("power_cycles", "power_cycles"),
   ("power_on_hours", "power_on_hours"),
   ("unsafe_shutdowns", "unsafe_shutdowns"),
   ("media_errors", "media_errors"),
   ("num_err_log_entries", "error_log_entries"),
   ("warning_temp_time", "warning_temperature_time_minutes"),
   ("critical_comp_time", "critical_composite_temperature_time_minutes")]

/-- Body of the `for json_key, metric_name in attribute_map.items()` loop:
skip absent keys; scale the data-unit counters by `512 * 1000`; rename
`percentage_used` to `ssd_life_left` with value `100 - value`. -/
def nvmeStep (log : List (String × Int)) (attrs : List (String × Int))
    (q : String × String) : List (String × Int) :=
  match dget log q.1 with
  | none => attrs
  | some v =>
    let v1 := if q.1 = "data_units_read" ∨ q.1 = "data_units_written"
      then v * 512 * 1000 else v
    if q.1 = "percentage_used" then dictInsert attrs "ssd_life_left" (100 - v1)
    else dictInsert attrs q.2 v1

/-- The attribute name `nvmeStep` writes for a map entry. -/
def nvmeOutKey (q : String × String) : String :=
  if q.1 = "percentage_used" then "ssd_life_left" else q.2

/-- The value `nvmeStep` writes for a map entry. -/
def nvmeVal (q : String × String) (v : Int) : Int :=
  if q.1 = "percentage_used" then 100 - v
  else if q.1 = "data_units_read" ∨ q.1 = "data_units_written" then v * 512 * 1000
  else v

theorem nvmeStep_eq (log : List (String × Int)) (attrs : List (String × Int))
    (q : String × String) :
    nvmeStep log attrs q =
      match dget log q.1 with
      | none => attrs
      | some v => dictInsert attrs (nvmeOutKey q) (nvmeVal q v) := by
  cases hv : dget log q.1 with
  | none => simp [nvmeStep, hv]
  | some v =>
    by_cases hp : q.1 = "percentage_used"
    · rw [hp] at hv
      simp [nvmeStep, hv, nvmeOutKey, nvmeVal, hp]
    · simp [nvmeStep, hv, nvmeOutKey, nvmeVal, hp]

/-- Name of the indexed sensor attribute
`f"temperature_sensor_{i+1}_celsius"`. -/
def sensorName (n : Nat) : String :=
  "temperature_sensor_" ++ (toString (n + 1) ++ "_celsius")

/-- `PercMetrics.parse_smartctl_nvme` on a successfully decoded report. -/
def nvmeAttrs (d : NvmeData) : List (String × Int) :=
  let a1 := nvme_attribute_map.foldl (nvmeStep d.smart_log) []
  let a2 := match d.temperature_sensors with
    | some ts => ts.enum.foldl (fun a p => dictInsert a (sensorName p.1) p.2) a1
    | none => a1
  let a3 := match d.nvme_total_capacity with
    | some c => dictInsert a2 "total_capacity_bytes" c
    | none => a2
  match d.smart_status_passed with
  | some p => dictInsert a3 "smart_status_passed" (if p then 1 else 0)
  | none => a3

/-- `PercMetrics.parse_smartctl_nvme` (src/main.py lines 136-191).  The
remote command result and the JSON decode are the two fallible stages.
When the remote command itself raises, the `except` handler's log
message reads the still-unbound local `out`, so the handler raises
`UnboundLocalError` instead of returning: only failures after `out` is
bound reach the `return {}, "unknown"` line. -/
def parse_smartctl_nvme (cmd : Except String String)
    (decode : String → Except String NvmeData) :
    Except String ((List (String × Int)) × String) :=
  match cmd with
  | .error e => .error ("UnboundLocalError: local variable referenced before assignment (" ++ e ++ ")")
  | .ok raw =>
    match decode raw with
    | .error _ => .ok ([], "unknown")
    | .ok d => .ok (nvmeAttrs d, d.serial_number.getD "unknown")

/-! ### Lemmas about the NVMe decoder -/

theorem dget_nvmeFold_ne : ∀ (entries : List (String × String))
    (log : List (String × Int)) (attrs : List (String × Int)) (k : String),
    (∀ q ∈ entries, nvmeOutKey q ≠ k ∨ dget log q.1 = none) →
    dget (entries.foldl (nvmeStep log) attrs) k = dget attrs k
  | [], _, _, _, _ => rfl
  | q :: rest, log, attrs, k, h => by
    rw [List.foldl_cons]
    rw [dget_nvmeFold_ne rest log _ k (fun q' hq' => h q' (by simp [hq']))]
    rw [nvmeStep_eq]
    cases hv : dget log q.1 with
    | none => rfl
    | some v =>
      rcases h q (by simp) with hk | hnone
      · exact dget_dictInsert_ne attrs _ hk
      · rw [hv] at hnone; exact absurd hnone (by simp)

theorem dget_nvmeFold_hit (pre post : List (String × String)) (q : String × String)
    (log attrs : List (String × Int)) (k : String) (v : Int)
    (hk : nvmeOutKey q = k) (hv : dget log q.1 = some v)
    (hpost : ∀ q' ∈ post, nvmeOutKey q' ≠ k ∨ dget log q'.1 = none) :
    dget ((pre ++ q :: post).foldl (nvmeStep log) attrs) k = some (nvmeVal q v) := by
  rw [List.foldl_append, List.foldl_cons]
  rw [dget_nvmeFold_ne post log _ k hpost]
  rw [nvmeStep_eq, hv]
  subst hk
  exact dget_dictInsert_self _ _ _

theorem sensorName_ne {k : String} (hk : k.data.take 19 ≠ "temperature_sensor_".data)
    (n : Nat) : sensorName n ≠ k := by
  intro he
  apply hk
  rw [← he, sensorName, String.data_append]
  exact List.take_left' (by decide)

theorem dget_sensorFold_ne : ∀ (l : List (Nat × Int)) (attrs : List (String × Int))
    (k : String), k.data.take 19 ≠ "temperature_sensor_".data →
    dget (l.foldl (fun a p => dictInsert a (sensorName p.1) p.2) attrs) k = dget attrs k
  | [], _, _, _ => rfl
  | p :: rest, attrs, k, hk => by
    rw [List.foldl_cons]
    rw [dget_sensorFold_ne rest _ k hk]
    exact dget_dictInsert_ne attrs _ (sensorName_ne hk p.1)

/-- Collapsing the tail inserts of `nvmeAttrs` for keys the tail never
writes. -/
theorem dget_nvmeAttrs_eq_fold (d : NvmeData) (k : String)
    (hk1 : k ≠ "total_capacity_bytes") (hk2 : k ≠ "smart_status_passed")
    (hk3 : k.data.take 19 ≠ "temperature_sensor_".data) :
    dget (nvmeAttrs d) k = dget (nvme_attribute_map.foldl (nvmeStep d.smart_log) []) k := by
  rcases hss : d.smart_status_passed with _ | p <;>
    rcases hcap : d.nvme_total_capacity with _ | c <;>
      rcases hts : d.temperature_sensors with _ | ts <;>
        simp only [nvmeAttrs, hss, hcap, hts]
  all_goals
    repeat first
      | rfl
      | rw [dget_dictInsert_ne _ _ (Ne.symm hk2)]
      | rw [dget_dictInsert_ne _ _ (Ne.symm hk1)]
      | rw [dget_sensorFold_ne _ _ _ hk3]

/-- Output names of distinct map entries are distinct. -/
theorem nvme_map_outkeys_inj : ∀ p ∈ nvme_attribute_map, ∀ q ∈ nvme_attribute_map,
    p ≠ q → nvmeOutKey p ≠ nvmeOutKey q := by decide

/-- No map entry writes one of the three names produced outside the map
loop. -/
theorem nvme_outkey_not_special : ∀ p ∈ nvme_attribute_map,
    nvmeOutKey p ≠ "total_capacity_bytes" ∧ nvmeOutKey p ≠ "smart_status_passed" ∧
    (nvmeOutKey p).data.take 19 ≠ "temperature_sensor_".data := by decide

/-! ### SCSI smartctl JSON decoder (`parse_smartctl_scsi`, src/main.py lines 193-263)

Attribute values are `SVal`: integers, or the not-yet-coerced source
string of a `float(...)` coercion (`gigabytes_processed`), which no claim
inspects numerically. -/

inductive SVal
  | i : Int → SVal
  | f : String → SVal
deriving DecidableEq, Repr

/-- One member of `scsi_error_counter_log`: integer counters plus the
string-typed `gigabytes_processed`. -/
structure OpData where
  ints : List (String × Int)
  gigabytes_processed : Option String
deriving DecidableEq, Repr

structure ScsiData where
  serial_number : Option String
  /-- `temperature.current`. -/
  temperature : Option Int
  /-- `power_on_time.hours`. -/
  power_on_time : Option Int
  scsi_start_stop_cycle_counter : Option (List (String × Int))
  scsi_grown_defect_list : Option Int
  scsi_error_counter_log : Option (List (String × OpData))
  /-- `scsi_pending_defects.count`. -/
  scsi_pending_defects : Option Int
  /-- `result.value` and `power_on_time.hours` of `scsi_self_test_0`. -/
  scsi_self_test_0 : Option (Int × Int)
  scsi_self_test_1 : Option (Int × Int)
  scsi_extended_self_test_seconds : Option Int
  /-- `smart_status.passed`. -/
  smart_status : Option Bool

def scsiTemp (d : ScsiData) (a : List (String × SVal)) : List (String × SVal) :=
  match d.temperature with
  | some t => dictInsert a "temperature_celsius" (.i t)
  | none => a

def scsiPoh (d : ScsiData) (a : List (String × SVal)) : List (String × SVal) :=
  match d.power_on_time with
  | some h => dictInsert a "power_on_hours" (.i h)
  | none => a

/-- The cycle-counter block defaults each absent subfield to 0 via
`cycle.get(..., 0)`. -/
def scsiCycle (d : ScsiData) (a : List (String × SVal)) : List (String × SVal) :=
  match d.scsi_start_stop_cycle_counter with
  | some cy =>
    dictInsert (dictInsert (dictInsert (dictInsert a
      "specified_cycle_count_over_device_lifetime"
        (.i ((dget cy "specified_cycle_count_over_device_lifetime").getD 0)))
      "accumulated_start_stop_cycles"
        (.i ((dget cy "accumulated_start_stop_cycles").getD 0)))
      "specified_load_unload_count_over_device_lifetime"
        (.i ((dget cy "specified_load_unload_count_over_device_lifetime").getD 0)))
      "accumulated_load_unload_cycles"
        (.i ((dget cy "accumulated_load_unload_cycles").getD 0))
  | none => a

def scsiDefect (d : ScsiData) (a : List (String × SVal)) : List (String × SVal) :=
  match d.scsi_grown_defect_list with
  | some g => dictInsert a "grown_defect_list" (.i g)
  | none => a

/-- A Python `for` loop whose body may raise: the first exception aborts
the whole loop. -/
def foldE {α β : Type} (f : β → α → Except String β) : β → List α → Except String β
  | b, [] => .ok b
  | b, a :: l =>
    match f b a with
    | .error e => .error e
    | .ok b' => foldE f b' l

/-- Nonempty decimal digit run with Python's underscore rule: every
underscore directly between two digits. -/
def digitsU : List Char → Bool
  | [] => false
  | c :: rest => c.isDigit && digitsUAux rest
where digitsUAux : List Char → Bool
  | [] => true
  | '_' :: c :: rest => c.isDigit && digitsUAux rest
  | c :: rest => c.isDigit && digitsUAux rest

def isDigU (c : Char) : Bool := c.isDigit || c == '_'

/-- Exponent tail of a Python float literal: empty, or `e`/`E`, an
optional sign, and digits. -/
def expOk : List Char → Bool
  | [] => true
  | c :: rest =>
    if c = 'e' ∨ c = 'E' then
      match rest with
      | s :: r => if s = '+' ∨ s = '-' then digitsU r else digitsU (s :: r)
      | [] => false
    else false

/-- Whether Python `float(s)` succeeds: surrounding whitespace, an
optional sign, then a decimal with optional point and exponent, or
`inf` / `infinity` / `nan` (case-insensitive).  The numeric value itself
is kept symbolic (`SVal.f` holds the accepted source string): no claim
inspects it, only whether the coercion raises `ValueError`. -/
def pyFloatOk (s : String) : Bool :=
  let cs := ((s.data.dropWhile Char.isWhitespace).reverse.dropWhile
    Char.isWhitespace).reverse
  let cs := match cs with
    | c :: r => if c = '+' ∨ c = '-' then r else c :: r
    | [] => []
  let lower := cs.map Char.toLower
  if lower = "inf".data ∨ lower = "infinity".data ∨ lower = "nan".data then true
  else
    let ip := cs.takeWhile isDigU
    let rest := cs.dropWhile isDigU
    match rest with
    | '.' :: r =>
      let fp := r.takeWhile isDigU
      let rest2 := r.dropWhile isDigU
      ((ip.isEmpty && digitsU fp) || (digitsU ip && fp.isEmpty) ||
        (digitsU ip && digitsU fp)) && expOk rest2
    | _ => digitsU ip && expOk rest

/-- The seven inserts a present per-operation error-counter object
produces, in emission order (src/main.py lines 228-234). -/
def opBlock (op : String) (od : OpData) (a : List (String × SVal)) :
    List (String × SVal) :=
  dictInsert (dictInsert (dictInsert (dictInsert (dictInsert (dictInsert (dictInsert a
    (op ++ "_errors_corrected_by_eccfast")
      (.i ((dget od.ints "errors_corrected_by_eccfast").getD 0)))
    (op ++ "_errors_corrected_by_eccdelayed")
      (.i ((dget od.ints "errors_corrected_by_eccdelayed").getD 0)))
    (op ++ "_errors_corrected_by_rereads_rewrites")
      (.i ((dget od.ints "errors_corrected_by_rereads_rewrites").getD 0)))
    (op ++ "_total_errors_corrected")
      (.i ((dget od.ints "total_errors_corrected").getD 0)))
    (op ++ "_correction_algorithm_invocations")
      (.i ((dget od.ints "correction_algorithm_invocations").getD 0)))
    (op ++ "_gigabytes_processed")
      (.f (od.gigabytes_processed.getD "0")))
    (op ++ "_total_uncorrected_errors")
      (.i ((dget od.ints "total_uncorrected_errors").getD 0))

/-- One iteration of `for op in ["read", "write", "verify"]`: each present
operation emits its seven counters, defaulting absent subfields per
`op_data.get(..., 0)` and `float(op_data.get("gigabytes_processed", "0"))`.
The `float(...)` coercion raises `ValueError` on a non-numeric string;
the raised exception discards the whole mapping, so the acceptance check
is hoisted before the block's inserts, which is observationally
equivalent. -/
def scsiOp (log : List (String × OpData)) (a : List (String × SVal)) (op : String) :
    Except String (List (String × SVal)) :=
  match dget log op with
  | none => .ok a
  | some od =>
    if pyFloatOk (od.gigabytes_processed.getD "0") then .ok (opBlock op od a)
    else .error "ValueError: could not convert string to float"

def scsiErrLog (d : ScsiData) (a : List (String × SVal)) :
    Except String (List (String × SVal)) :=
  match d.scsi_error_counter_log with
  | some log => foldE (scsiOp log) a ["read", "write", "verify"]
  | none => .ok a

def scsiPending (d : ScsiData) (a : List (String × SVal)) : List (String × SVal) :=
  match d.scsi_pending_defects with
  | some c => dictInsert a "pending_defects_count" (.i c)
  | none => a

def scsiSelfTest0 (d : ScsiData) (a : List (String × SVal)) : List (String × SVal) :=
  match d.scsi_self_test_0 with
  | some t => dictInsert (dictInsert a "self_test_0_result" (.i t.1))
      "self_test_0_power_on_time" (.i t.2)
  | none => a

def scsiSelfTest1 (d : ScsiData) (a : List (String × SVal)) : List (String × SVal) :=
  match d.scsi_self_test_1 with
  | some t => dictInsert (dictInsert a "self_test_1_result" (.i t.1))
      "self_test_1_power_on_time" (.i t.2)
  | none => a

def scsiExtended (d : ScsiData) (a : List (String × SVal)) : List (String × SVal) :=
  match d.scsi_extended_self_test_seconds with
  | some s => dictInsert a "extended_self_test_seconds" (.i s)
  | none => a

def scsiStatus (d : ScsiData) (a : List (String × SVal)) : List (String × SVal) :=
  match d.smart_status with
  | some p => dictInsert a "smart_status_passed" (.i (if p then 1 else 0))
  | none => a

/-- `PercMetrics.parse_smartctl_scsi` on a successfully decoded report:
the source's blocks applied in order to the fresh `attrs` dict; a
`ValueError` from the error-counter block aborts the build. -/
def scsiAttrs (d : ScsiData) : Except String (List (String × SVal)) :=
  match scsiErrLog d (scsiDefect d (scsiCycle d (scsiPoh d (scsiTemp d [])))) with
  | .error e => .error e
  | .ok a =>
    .ok (scsiStatus d (scsiExtended d (scsiSelfTest1 d (scsiSelfTest0 d
      (scsiPending d a)))))

/-- `PercMetrics.parse_smartctl_scsi` (src/main.py lines 193-263), with
the same unbound-`out` behaviour in the `except` handler as the NVMe
variant.  A `ValueError` raised while building the attribute dict occurs
after `out` is bound, so the handler returns `({}, "unknown")`. -/
def parse_smartctl_scsi (cmd : Except String String)
    (decode : String → Except String ScsiData) :
    Except String ((List (String × SVal)) × String) :=
  match cmd with
  | .error e => .error ("UnboundLocalError: local variable referenced before assignment (" ++ e ++ ")")
  | .ok raw =>
    match decode raw with
    | .error _ => .ok ([], "unknown")
    | .ok d =>
      match scsiAttrs d with
      | .error _ => .ok ([], "unknown")
      | .ok attrs => .ok (attrs, d.serial_number.getD "unknown")

/-! ### Preservation lemmas for the SCSI decoder's blocks -/

/-- The seven per-operation key suffixes, in emission order. -/
def opSuffixes : List String :=
  ["_errors_corrected_by_eccfast", "_errors_corrected_by_eccdelayed",
   "_errors_corrected_by_rereads_rewrites", "_total_errors_corrected",
   "_correction_algorithm_invocations", "_gigabytes_processed",
   "_total_uncorrected_errors"]

theorem string_append_left_cancel {op s t : String} (h : op ++ s = op ++ t) : s = t := by
  have hd := congrArg String.data h
  rw [String.data_append, String.data_append] at hd
  exact String.ext (List.append_cancel_left hd)

theorem dget_scsiTemp_ne (d : ScsiData) (a : List (String × SVal)) (k : String)
    (h : k ≠ "temperature_celsius") : dget (scsiTemp d a) k = dget a k := by
  rw [scsiTemp]
  cases d.temperature with
  | none => rfl
  | some t => exact dget_dictInsert_ne a _ (Ne.symm h)

theorem dget_scsiPoh_ne (d : ScsiData) (a : List (String × SVal)) (k : String)
    (h : k ≠ "power_on_hours") : dget (scsiPoh d a) k = dget a k := by
  rw [scsiPoh]
  cases d.power_on_time with
  | none => rfl
  | some t => exact dget_dictInsert_ne a _ (Ne.symm h)

theorem dget_scsiCycle_ne (d : ScsiData) (a : List (String × SVal)) (k : String)
    (h1 : k ≠ "specified_cycle_count_over_device_lifetime")
    (h2 : k ≠ "accumulated_start_stop_cycles")
    (h3 : k ≠ "specified_load_unload_count_over_device_lifetime")
    (h4 : k ≠ "accumulated_load_unload_cycles") :
    dget (scsiCycle d a) k = dget a k := by
  rw [scsiCycle]
  cases d.scsi_start_stop_cycle_counter with
  | none => rfl
  | some cy =>
    rw [dget_dictInsert_ne _ _ (Ne.symm h4), dget_dictInsert_ne _ _ (Ne.symm h3),
      dget_dictInsert_ne _ _ (Ne.symm h2), dget_dictInsert_ne _ _ (Ne.symm h1)]

theorem dget_scsiDefect_ne (d : ScsiData) (a : List (String × SVal)) (k : String)
    (h : k ≠ "grown_defect_list") : dget (scsiDefect d a) k = dget a k := by
  rw [scsiDefect]
  cases d.scsi_grown_defect_list with
  | none => rfl
  | some g => exact dget_dictInsert_ne a _ (Ne.symm h)

theorem append_ne_of_ne {s t : String} (op : String) (h : s ≠ t) :
    op ++ s ≠ op ++ t :=
  fun he => h (string_append_left_cancel he)

theorem dget_opBlock_ne (op : String) (od : OpData) (a : List (String × SVal))
    (k : String) (h : ∀ suf ∈ opSuffixes, op ++ suf ≠ k) :
    dget (opBlock op od a) k = dget a k := by
  have h1 := h "_errors_corrected_by_eccfast" (by simp [opSuffixes])
  have h2 := h "_errors_corrected_by_eccdelayed" (by simp [opSuffixes])
  have h3 := h "_errors_corrected_by_rereads_rewrites" (by simp [opSuffixes])
  have h4 := h "_total_errors_corrected" (by simp [opSuffixes])
  have h5 := h "_correction_algorithm_invocations" (by simp [opSuffixes])
  have h6 := h "_gigabytes_processed" (by simp [opSuffixes])
  have h7 := h "_total_uncorrected_errors" (by simp [opSuffixes])
  rw [opBlock]
  rw [dget_dictInsert_ne _ _ h7, dget_dictInsert_ne _ _ h6, dget_dictInsert_ne _ _ h5,
    dget_dictInsert_ne _ _ h4, dget_dictInsert_ne _ _ h3, dget_dictInsert_ne _ _ h2,
    dget_dictInsert_ne _ _ h1]

/-- The six integer subfields of a per-operation error-counter object and
the key suffixes they are emitted under. -/
def opIntPairs : List (String × String) :=
  [("errors_corrected_by_eccfast", "_errors_corrected_by_eccfast"),
   ("errors_corrected_by_eccdelayed", "_errors_corrected_by_eccdelayed"),
   ("errors_corrected_by_rereads_rewrites", "_errors_corrected_by_rereads_rewrites"),
   ("total_errors_corrected", "_total_errors_corrected"),
   ("correction_algorithm_invocations", "_correction_algorithm_invocations"),
   ("total_uncorrected_errors", "_total_uncorrected_errors")]

theorem dget_opBlock_int (op : String) (od : OpData) (a : List (String × SVal)) :
    ∀ p ∈ opIntPairs,
      dget (opBlock op od a) (op ++ p.2) = some (.i ((dget od.ints p.1).getD 0)) := by
  intro p hp
  rw [opBlock]
  simp only [opIntPairs, List.mem_cons, List.not_mem_nil, or_false] at hp
  rcases hp with rfl | rfl | rfl | rfl | rfl | rfl
  · rw [dget_dictInsert_ne _ _ (append_ne_of_ne op (by decide)),
      dget_dictInsert_ne _ _ (append_ne_of_ne op (by decide)),
      dget_dictInsert_ne _ _ (append_ne_of_ne op (by decide)),
      dget_dictInsert_ne _ _ (append_ne_of_ne op (by decide)),
      dget_dictInsert_ne _ _ (append_ne_of_ne op (by decide)),
      dget_dictInsert_ne _ _ (append_ne_of_ne op (by decide)),
      dget_dictInsert_self]
  · rw [dget_dictInsert_ne _ _ (append_ne_of_ne op (by decide)),
      dget_dictInsert_ne _ _ (append_ne_of_ne op (by decide)),
      dget_dictInsert_ne _ _ (append_ne_of_ne op (by decide)),
      dget_dictInsert_ne _ _ (append_ne_of_ne op (by decide)),
      dget_dictInsert_ne _ _ (append_ne_of_ne op (by decide)),
      dget_dictInsert_self]
  · rw [dget_dictInsert_ne _ _ (append_ne_of_ne op (by decide)),
      dget_dictInsert_ne _ _ (append_ne_of_ne op (by decide)),
      dget_dictInsert_ne _ _ (append_ne_of_ne op (by decide)),
      dget_dictInsert_ne _ _ (append_ne_of_ne op (by decide)),
      dget_dictInsert_self]
  · rw [dget_dictInsert_ne _ _ (append_ne_of_ne op (by decide)),
      dget_dictInsert_ne _ _ (append_ne_of_ne op (by decide)),
      dget_dictInsert_ne _ _ (append_ne_of_ne op (by decide)),
      dget_dictInsert_self]
  · rw [dget_dictInsert_ne _ _ (append_ne_of_ne op (by decide)),
      dget_dictInsert_ne _ _ (append_ne_of_ne op (by decide)),
      dget_dictInsert_self]
  · rw [dget_dictInsert_self]

theorem dget_opBlock_gig (op : String) (od : OpData) (a : List (String × SVal)) :
    dget (opBlock op od a) (op ++ "_gigabytes_processed") =
      some (.f (od.gigabytes_processed.getD "0")) := by
  rw [opBlock, dget_dictInsert_ne _ _ (append_ne_of_ne op (by decide)),
    dget_dictInsert_self]

theorem foldE_ok_cons {α β : Type} (f : β → α → Except String β) (b : β) (x : α)
    (l : List α) (r : β) (h : foldE f b (x :: l) = .ok r) :
    ∃ b', f b x = .ok b' ∧ foldE f b' l = .ok r := by
  rw [foldE] at h
  cases hf : f b x with
  | error e => rw [hf] at h; exact absurd h (by simp)
  | ok b' => rw [hf] at h; exact ⟨b', rfl, h⟩

theorem scsiOp_ok_absent {log : List (String × OpData)} {acc acc' : List (String × SVal)}
    {op : String} (h : scsiOp log acc op = .ok acc') (hop : dget log op = none) :
    acc' = acc := by
  rw [scsiOp, hop] at h
  exact (Except.ok.inj h).symm

theorem scsiOp_ok_present {log : List (String × OpData)} {acc acc' : List (String × SVal)}
    {op : String} {od : OpData} (h : scsiOp log acc op = .ok acc')
    (hop : dget log op = some od) : acc' = opBlock op od acc := by
  rw [scsiOp, hop] at h
  simp only at h
  cases hfl : pyFloatOk (od.gigabytes_processed.getD "0") with
  | false => rw [hfl] at h; simp at h
  | true =>
    rw [hfl] at h
    simp at h
    exact h.symm

theorem dget_scsiOp_ok_ne {log : List (String × OpData)} {acc acc' : List (String × SVal)}
    {op : String} (h : scsiOp log acc op = .ok acc') (k : String)
    (hk : ∀ suf ∈ opSuffixes, op ++ suf ≠ k) : dget acc' k = dget acc k := by
  cases hop : dget log op with
  | none => rw [scsiOp_ok_absent h hop]
  | some od =>
    rw [scsiOp_ok_present h hop]
    exact dget_opBlock_ne op od acc k hk

theorem dget_scsiErrLog_ok_ne (d : ScsiData) {x a : List (String × SVal)} (k : String)
    (herr : scsiErrLog d x = .ok a)
    (hk : ∀ op ∈ (["read", "write", "verify"] : List String),
      ∀ suf ∈ opSuffixes, op ++ suf ≠ k) :
    dget a k = dget x k := by
  rw [scsiErrLog] at herr
  cases hlog : d.scsi_error_counter_log with
  | none =>
    rw [hlog] at herr
    rw [(Except.ok.inj herr).symm]
  | some log =>
    rw [hlog] at herr
    obtain ⟨a1, h1, herr⟩ := foldE_ok_cons _ _ _ _ _ herr
    obtain ⟨a2, h2, herr⟩ := foldE_ok_cons _ _ _ _ _ herr
    obtain ⟨a3, h3, herr⟩ := foldE_ok_cons _ _ _ _ _ herr
    have ha : a3 = a := Except.ok.inj herr
    subst ha
    rw [dget_scsiOp_ok_ne h3 k (hk "verify" (by simp)),
      dget_scsiOp_ok_ne h2 k (hk "write" (by simp)),
      dget_scsiOp_ok_ne h1 k (hk "read" (by simp))]

theorem dget_scsiPending_ne (d : ScsiData) (a : List (String × SVal)) (k : String)
    (h : k ≠ "pending_defects_count") : dget (scsiPending d a) k = dget a k := by
  rw [scsiPending]
  cases d.scsi_pending_defects with
  | none => rfl
  | some c => exact dget_dictInsert_ne a _ (Ne.symm h)

theorem dget_scsiSelfTest0_ne (d : ScsiData) (a : List (String × SVal)) (k : String)
    (h1 : k ≠ "self_test_0_result") (h2 : k ≠ "self_test_0_power_on_time") :
    dget (scsiSelfTest0 d a) k = dget a k := by
  rw [scsiSelfTest0]
  cases d.scsi_self_test_0 with
  | none => rfl
  | some t => rw [dget_dictInsert_ne _ _ (Ne.symm h2), dget_dictInsert_ne _ _ (Ne.symm h1)]

theorem dget_scsiSelfTest1_ne (d : ScsiData) (a : List (String × SVal)) (k : String)
    (h1 : k ≠ "self_test_1_result") (h2 : k ≠ "self_test_1_power_on_time") :
    dget (scsiSelfTest1 d a) k = dget a k := by
  rw [scsiSelfTest1]
  cases d.scsi_self_test_1 with
  | none => rfl
  | some t => rw [dget_dictInsert_ne _ _ (Ne.symm h2), dget_dictInsert_ne _ _ (Ne.symm h1)]

theorem dget_scsiExtended_ne (d : ScsiData) (a : List (String × SVal)) (k : String)
    (h : k ≠ "extended_self_test_seconds") : dget (scsiExtended d a) k = dget a k := by
  rw [scsiExtended]
  cases d.scsi_extended_self_test_seconds with
  | none => rfl
  | some s => exact dget_dictInsert_ne a _ (Ne.symm h)

theorem dget_scsiStatus_ne (d : ScsiData) (a : List (String × SVal)) (k : String)
    (h : k ≠ "smart_status_passed") : dget (scsiStatus d a) k = dget a k := by
  rw [scsiStatus]
  cases d.smart_status with
  | none => rfl
  | some p => exact dget_dictInsert_ne a _ (Ne.symm h)

/-! ### Claims about the JSON decoders -/

/-- C5: in the NVMe decoder, every present `data_units_read` /
`data_units_written` value is emitted multiplied by `512 * 1000`, and a
present `percentage_used` value `v` is emitted as `ssd_life_left` with
value `100 - v`. -/
theorem C5_nvme_values (d : NvmeData) :
    (∀ v : Int, dget d.smart_log "data_units_read" = some v →
      dget (nvmeAttrs d) "data_units_read" = some (v * 512 * 1000)) ∧
    (∀ v : Int, dget d.smart_log "data_units_written" = some v →
      dget (nvmeAttrs d) "data_units_written" = some (v * 512 * 1000)) ∧
    (∀ v : Int, dget d.smart_log "percentage_used" = some v →
      dget (nvmeAttrs d) "ssd_life_left" = some (100 - v)) := by
  refine ⟨?_, ?_, ?_⟩ <;> intro v hv
  · rw [dget_nvmeAttrs_eq_fold d "data_units_read" (by decide) (by decide) (by decide)]
    have hpost : ∀ q' ∈ ([("data_units_written", "data_units_written"),
        ("host_reads", "host_reads"), ("host_writes", "host_writes"),
        ("controller_busy_time", "controller_busy_time_minutes"),
        ("power_cycles", "power_cycles"), ("power_on_hours", "power_on_hours"),
        ("unsafe_shutdowns", "unsafe_shutdowns"), ("media_errors", "media_errors"),
        ("num_err_log_entries", "error_log_entries"),
        ("warning_temp_time", "warning_temperature_time_minutes"),
        ("critical_comp_time", "critical_composite_temperature_time_minutes")] :
          List (String × String)), nvmeOutKey q' ≠ "data_units_read" := by decide
    rw [show nvme_attribute_map =
      [("critical_warning", "critical_warning"), ("temperature", "temperature_celsius"),
       ("available_spare", "available_spare_percent"),
       ("available_spare_threshold", "available_spare_threshold_percent"),
       ("percentage_used", "percentage_used")] ++
      ("data_units_read", "data_units_read") ::
      [("data_units_written", "data_units_written"),
       ("host_reads", "host_reads"), ("host_writes", "host_writes"),
       ("controller_busy_time", "controller_busy_time_minutes"),
       ("power_cycles", "power_cycles"), ("power_on_hours", "power_on_hours"),
       ("unsafe_shutdowns", "unsafe_shutdowns"), ("media_errors", "media_errors"),
       ("num_err_log_entries", "error_log_entries"),
       ("warning_temp_time", "warning_temperature_time_minutes"),
       ("critical_comp_time", "critical_composite_temperature_time_minutes")] from rfl]
    rw [dget_nvmeFold_hit _ _ _ d.smart_log [] _ v (by decide) hv
      (fun q' hq' => Or.inl (hpost q' hq'))]
    simp [nvmeVal]
  · rw [dget_nvmeAttrs_eq_fold d "data_units_written" (by decide) (by decide) (by decide)]
    have hpost : ∀ q' ∈ ([("host_reads", "host_reads"), ("host_writes", "host_writes"),
        ("controller_busy_time", "controller_busy_time_minutes"),
        ("power_cycles", "power_cycles"), ("power_on_hours", "power_on_hours"),
        ("unsafe_shutdowns", "unsafe_shutdowns"), ("media_errors", "media_errors"),
        ("num_err_log_entries", "error_log_entries"),
        ("warning_temp_time", "warning_temperature_time_minutes"),
        ("critical_comp_time", "critical_composite_temperature_time_minutes")] :
          List (String × String)), nvmeOutKey q' ≠ "data_units_written" := by decide
    rw [show nvme_attribute_map =
      [("critical_warning", "critical_warning"), ("temperature", "temperature_celsius"),
       ("available_spare", "available_spare_percent"),
       ("available_spare_threshold", "available_spare_threshold_percent"),
       ("percentage_used", "percentage_used"),
       ("data_units_read", "data_units_read")] ++
      ("data_units_written", "data_units_written") ::
      [("host_reads", "host_reads"), ("host_writes", "host_writes"),
       ("controller_busy_time", "controller_busy_time_minutes"),
       ("power_cycles", "power_cycles"), ("power_on_hours", "power_on_hours"),
       ("unsafe_shutdowns", "unsafe_shutdowns"), ("media_errors", "media_errors"),
       ("num_err_log_entries", "error_log_entries"),
       ("warning_temp_time", "warning_temperature_time_minutes"),
       ("critical_comp_time", "critical_composite_temperature_time_minutes")] from rfl]
    rw [dget_nvmeFold_hit _ _ _ d.smart_log [] _ v (by decide) hv
      (fun q' hq' => Or.inl (hpost q' hq'))]
    simp [nvmeVal]
  · rw [dget_nvmeAttrs_eq_fold d "ssd_life_left" (by decide) (by decide) (by decide)]
    have hpost : ∀ q' ∈ ([("data_units_read", "data_units_read"),
        ("data_units_written", "data_units_written"),
        ("host_reads", "host_reads"), ("host_writes", "host_writes"),
        ("controller_busy_time", "controller_busy_time_minutes"),
        ("power_cycles", "power_cycles"), ("power_on_hours", "power_on_hours"),
        ("unsafe_shutdowns", "unsafe_shutdowns"), ("media_errors", "media_errors"),
        ("num_err_log_entries", "error_log_entries"),
        ("warning_temp_time", "warning_temperature_time_minutes"),
        ("critical_comp_time", "critical_composite_temperature_time_minutes")] :
          List (String × String)), nvmeOutKey q' ≠ "ssd_life_left" := by decide
    rw [show nvme_attribute_map =
      [("critical_warning", "critical_warning"), ("temperature", "temperature_celsius"),
       ("available_spare", "available_spare_percent"),
       ("available_spare_threshold", "available_spare_threshold_percent")] ++
      ("percentage_used", "percentage_used") ::
      [("data_units_read", "data_units_read"),
       ("data_units_written", "data_units_written"),
       ("host_reads", "host_reads"), ("host_writes", "host_writes"),
       ("controller_busy_time", "controller_busy_time_minutes"),
       ("power_cycles", "power_cycles"), ("power_on_hours", "power_on_hours"),
       ("unsafe_shutdowns", "unsafe_shutdowns"), ("media_errors", "media_errors"),
       ("num_err_log_entries", "error_log_entries"),
       ("warning_temp_time", "warning_temperature_time_minutes"),
       ("critical_comp_time", "critical_composite_temperature_time_minutes")] from rfl]
    rw [dget_nvmeFold_hit _ _ _ d.smart_log [] _ v (by decide) hv
      (fun q' hq' => Or.inl (hpost q' hq'))]
    simp [nvmeVal]

/-- A concrete NVMe report matching the spec's worked example. -/
def nvmeSample : NvmeData :=
  { serial_number := some "S1XANX0T123456",
    smart_log := [("data_units_written", 2), ("percentage_used", 7)],
    temperature_sensors := none,
    nvme_total_capacity := none,
    smart_status_passed := none }

/-- C5 witness: `data_units_written: 2` is emitted as 1024000 and
`percentage_used: 7` as `ssd_life_left = 93`. -/
theorem C5_nvme_values_witness :
    dget nvmeSample.smart_log "data_units_written" = some 2 ∧
    dget nvmeSample.smart_log "percentage_used" = some 7 ∧
    dget (nvmeAttrs nvmeSample) "data_units_written" = some 1024000 ∧
    dget (nvmeAttrs nvmeSample) "ssd_life_left" = some 93 := by
  refine ⟨by decide, by decide, ?_, ?_⟩
  · have h := (C5_nvme_values nvmeSample).2.1 2 (by decide)
    simpa using h
  · have h := (C5_nvme_values nvmeSample).2.2 7 (by decide)
    simpa using h

/-- C6: when the remote smartctl command itself fails, each decoder's
`except` handler evaluates the unbound local `out` in its log message, so
an exception propagates instead of the documented `({}, "unknown")`
return; only failures after `out` is bound (for instance a JSON decode
error) produce the empty mapping with serial `"unknown"`. -/
theorem C6_handler_crash :
    (∃ e, parse_smartctl_nvme (.error "SSH command failed: exit status 255")
      (fun _ => .error "json decode error") = .error e) ∧
    (∃ e, parse_smartctl_scsi (.error "SSH command failed: exit status 255")
      (fun _ => .error "json decode error") = .error e) ∧
    parse_smartctl_nvme (.ok "garbage output")
      (fun _ => .error "json decode error") = .ok ([], "unknown") ∧
    parse_smartctl_scsi (.ok "garbage output")
      (fun _ => .error "json decode error") = .ok ([], "unknown") :=
  ⟨⟨_, rfl⟩, ⟨_, rfl⟩, rfl, rfl⟩

/-- C8 (amended): in the NVMe decoder every absent mapped field is
omitted, never defaulted; in the SCSI decoder absent top-level fields are
omitted, but an absent subfield of a present group is emitted with
default 0. -/
def opNames : List String := ["read", "write", "verify"]

/-- The four keys of the cycle-counter block; each equals its source
subfield name. -/
def cycleKeys : List String :=
  ["specified_cycle_count_over_device_lifetime", "accumulated_start_stop_cycles",
   "specified_load_unload_count_over_device_lifetime", "accumulated_load_unload_cycles"]

/-- A per-operation key never collides with any key of another block. -/
theorem opKey_ne_scalar : ∀ op ∈ opNames, ∀ suf ∈ opSuffixes,
    op ++ suf ≠ "temperature_celsius" ∧ op ++ suf ≠ "power_on_hours" ∧
    op ++ suf ≠ "specified_cycle_count_over_device_lifetime" ∧
    op ++ suf ≠ "accumulated_start_stop_cycles" ∧
    op ++ suf ≠ "specified_load_unload_count_over_device_lifetime" ∧
    op ++ suf ≠ "accumulated_load_unload_cycles" ∧
    op ++ suf ≠ "grown_defect_list" ∧ op ++ suf ≠ "pending_defects_count" ∧
    op ++ suf ≠ "self_test_0_result" ∧ op ++ suf ≠ "self_test_0_power_on_time" ∧
    op ++ suf ≠ "self_test_1_result" ∧ op ++ suf ≠ "self_test_1_power_on_time" ∧
    op ++ suf ≠ "extended_self_test_seconds" ∧ op ++ suf ≠ "smart_status_passed" := by
  decide

/-- Keys of two distinct operations never collide. -/
theorem ops_cross_ne : ∀ op1 ∈ opNames, ∀ op2 ∈ opNames, op1 ≠ op2 →
    ∀ s ∈ opSuffixes, ∀ t ∈ opSuffixes, op1 ++ s ≠ op2 ++ t := by decide

theorem opIntPairs_suffixes : ∀ p ∈ opIntPairs, p.2 ∈ opSuffixes := by decide

/-- Collapsing the five blocks after the error-counter log for keys none
of them writes. -/
theorem dget_scsiTail_ne (d : ScsiData) (a : List (String × SVal)) (k : String)
    (h1 : k ≠ "pending_defects_count") (h2 : k ≠ "self_test_0_result")
    (h3 : k ≠ "self_test_0_power_on_time") (h4 : k ≠ "self_test_1_result")
    (h5 : k ≠ "self_test_1_power_on_time") (h6 : k ≠ "extended_self_test_seconds")
    (h7 : k ≠ "smart_status_passed") :
    dget (scsiStatus d (scsiExtended d (scsiSelfTest1 d (scsiSelfTest0 d
      (scsiPending d a))))) k = dget a k := by
  rw [dget_scsiStatus_ne d _ k h7, dget_scsiExtended_ne d _ k h6,
    dget_scsiSelfTest1_ne d _ k h4 h5, dget_scsiSelfTest0_ne d _ k h2 h3,
    dget_scsiPending_ne d _ k h1]

/-- The four blocks before the error-counter log write none of the other
keys, and the dict starts empty. -/
theorem dget_scsiInner_ne (d : ScsiData) (k : String)
    (h1 : k ≠ "temperature_celsius") (h2 : k ≠ "power_on_hours")
    (h3 : k ≠ "specified_cycle_count_over_device_lifetime")
    (h4 : k ≠ "accumulated_start_stop_cycles")
    (h5 : k ≠ "specified_load_unload_count_over_device_lifetime")
    (h6 : k ≠ "accumulated_load_unload_cycles")
    (h7 : k ≠ "grown_defect_list") :
    dget (scsiDefect d (scsiCycle d (scsiPoh d (scsiTemp d [])))) k = none := by
  rw [dget_scsiDefect_ne d _ k h7, dget_scsiCycle_ne d _ k h3 h4 h5 h6,
    dget_scsiPoh_ne d _ k h2, dget_scsiTemp_ne d _ k h1]
  rfl

/-- A successful `scsiAttrs` build splits into the error-counter stage
over the first four blocks, then the last five blocks. -/
theorem scsiAttrs_decomp (d : ScsiData) (attrs : List (String × SVal))
    (h : scsiAttrs d = .ok attrs) :
    ∃ a, scsiErrLog d (scsiDefect d (scsiCycle d (scsiPoh d (scsiTemp d [])))) = .ok a ∧
      attrs = scsiStatus d (scsiExtended d (scsiSelfTest1 d (scsiSelfTest0 d
        (scsiPending d a)))) := by
  rw [scsiAttrs] at h
  cases herr : scsiErrLog d (scsiDefect d (scsiCycle d (scsiPoh d (scsiTemp d [])))) with
  | error e => rw [herr] at h; exact absurd h (by simp)
  | ok a =>
    rw [herr] at h
    exact ⟨a, rfl, (Except.ok.inj h).symm⟩

/-- C8 (amended): in the NVMe decoder every absent mapped field is
omitted, never defaulted.  In the SCSI decoder every absent top-level
field is omitted — no key of its block appears — but an absent subfield
of a present group is emitted with its default: 0 for the cycle counters
and the per-operation integer counters, `float("0")` for an absent
`gigabytes_processed`; and a present `gigabytes_processed` string that
`float()` cannot parse raises, discarding the whole mapping
(`({}, "unknown")`). -/
theorem C8_optional_fields :
    (∀ (d : NvmeData), ∀ p ∈ nvme_attribute_map, dget d.smart_log p.1 = none →
      dget (nvmeAttrs d) (nvmeOutKey p) = none) ∧
    (∀ (d : ScsiData) (attrs : List (String × SVal)), scsiAttrs d = .ok attrs →
      (d.temperature = none → dget attrs "temperature_celsius" = none) ∧
      (d.power_on_time = none → dget attrs "power_on_hours" = none) ∧
      (d.scsi_start_stop_cycle_counter = none →
        ∀ k ∈ cycleKeys, dget attrs k = none) ∧
      (d.scsi_grown_defect_list = none → dget attrs "grown_defect_list" = none) ∧
      (d.scsi_error_counter_log = none →
        ∀ op ∈ opNames, ∀ suf ∈ opSuffixes, dget attrs (op ++ suf) = none) ∧
      (d.scsi_pending_defects = none → dget attrs "pending_defects_count" = none) ∧
      (d.scsi_self_test_0 = none → dget attrs "self_test_0_result" = none ∧
        dget attrs "self_test_0_power_on_time" = none) ∧
      (d.scsi_self_test_1 = none → dget attrs "self_test_1_result" = none ∧
        dget attrs "self_test_1_power_on_time" = none) ∧
      (d.scsi_extended_self_test_seconds = none →
        dget attrs "extended_self_test_seconds" = none) ∧
      (d.smart_status = none → dget attrs "smart_status_passed" = none)) ∧
    (∀ (d : ScsiData) (attrs : List (String × SVal)) (cy : List (String × Int)),
      scsiAttrs d = .ok attrs → d.scsi_start_stop_cycle_counter = some cy →
      ∀ k ∈ cycleKeys, dget cy k = none → dget attrs k = some (.i 0)) ∧
    (∀ (d : ScsiData) (attrs : List (String × SVal)) (log : List (String × OpData)),
      scsiAttrs d = .ok attrs → d.scsi_error_counter_log = some log →
      ∀ op ∈ opNames, ∀ od : OpData, dget log op = some od →
        (∀ p ∈ opIntPairs, dget od.ints p.1 = none →
          dget attrs (op ++ p.2) = some (.i 0)) ∧
        (od.gigabytes_processed = none →
          dget attrs (op ++ "_gigabytes_processed") = some (.f "0"))) ∧
    (∀ (decode : String → Except String ScsiData) (raw : String) (d : ScsiData)
      (e : String), decode raw = .ok d → scsiAttrs d = .error e →
      parse_smartctl_scsi (.ok raw) decode = .ok ([], "unknown")) := by
  refine ⟨?_, ?_, ?_, ?_, ?_⟩
  · intro d p hp habs
    obtain ⟨h1, h2, h3⟩ := nvme_outkey_not_special p hp
    rw [dget_nvmeAttrs_eq_fold d (nvmeOutKey p) h1 h2 h3]
    rw [dget_nvmeFold_ne nvme_attribute_map d.smart_log [] (nvmeOutKey p) ?_]
    · rfl
    · intro q hq
      by_cases hqp : q = p
      · subst hqp; exact Or.inr habs
      · exact Or.inl (nvme_map_outkeys_inj q hq p hp hqp)
  · intro d attrs hattrs
    obtain ⟨a, herr, rfl⟩ := scsiAttrs_decomp d attrs hattrs
    refine ⟨?_, ?_, ?_, ?_, ?_, ?_, ?_, ?_, ?_, ?_⟩
    · intro hnone
      rw [dget_scsiTail_ne d a "temperature_celsius" (by decide) (by decide) (by decide)
          (by decide) (by decide) (by decide) (by decide),
        dget_scsiErrLog_ok_ne d "temperature_celsius" herr (by decide),
        dget_scsiDefect_ne d _ "temperature_celsius" (by decide),
        dget_scsiCycle_ne d _ "temperature_celsius" (by decide) (by decide) (by decide)
          (by decide),
        dget_scsiPoh_ne d _ "temperature_celsius" (by decide)]
      simp only [scsiTemp, hnone]
      rfl
    · intro hnone
      rw [dget_scsiTail_ne d a "power_on_hours" (by decide) (by decide) (by decide)
          (by decide) (by decide) (by decide) (by decide),
        dget_scsiErrLog_ok_ne d "power_on_hours" herr (by decide),
        dget_scsiDefect_ne d _ "power_on_hours" (by decide),
        dget_scsiCycle_ne d _ "power_on_hours" (by decide) (by decide) (by decide)
          (by decide)]
      simp only [scsiPoh, hnone]
      rw [dget_scsiTemp_ne d _ "power_on_hours" (by decide)]
      rfl
    · intro hnone k hk
      simp only [cycleKeys, List.mem_cons, List.not_mem_nil, or_false] at hk
      rcases hk with rfl | rfl | rfl | rfl
      · rw [dget_scsiTail_ne d a "specified_cycle_count_over_device_lifetime"
            (by decide) (by decide) (by decide) (by decide) (by decide) (by decide)
            (by decide),
          dget_scsiErrLog_ok_ne d "specified_cycle_count_over_device_lifetime" herr
            (by decide),
          dget_scsiDefect_ne d _ "specified_cycle_count_over_device_lifetime" (by decide)]
        simp only [scsiCycle, hnone]
        rw [dget_scsiPoh_ne d _ "specified_cycle_count_over_device_lifetime" (by decide),
          dget_scsiTemp_ne d _ "specified_cycle_count_over_device_lifetime" (by decide)]
        rfl
      · rw [dget_scsiTail_ne d a "accumulated_start_stop_cycles" (by decide) (by decide)
            (by decide) (by decide) (by decide) (by decide) (by decide),
          dget_scsiErrLog_ok_ne d "accumulated_start_stop_cycles" herr (by decide),
          dget_scsiDefect_ne d _ "accumulated_start_stop_cycles" (by decide)]
        simp only [scsiCycle, hnone]
        rw [dget_scsiPoh_ne d _ "accumulated_start_stop_cycles" (by decide),
          dget_scsiTemp_ne d _ "accumulated_start_stop_cycles" (by decide)]
        rfl
      · rw [dget_scsiTail_ne d a "specified_load_unload_count_over_device_lifetime"
            (by decide) (by decide) (by decide) (by decide) (by decide) (by decide)
            (by decide),
          dget_scsiErrLog_ok_ne d "specified_load_unload_count_over_device_lifetime"
            herr (by decide),
          dget_scsiDefect_ne d _ "specified_load_unload_count_over_device_lifetime"
            (by decide)]
        simp only [scsiCycle, hnone]
        rw [dget_scsiPoh_ne d _ "specified_load_unload_count_over_device_lifetime"
            (by decide),
          dget_scsiTemp_ne d _ "specified_load_unload_count_over_device_lifetime"
            (by decide)]
        rfl
      · rw [dget_scsiTail_ne d a "accumulated_load_unload_cycles" (by decide) (by decide)
            (by decide) (by decide) (by decide) (by decide) (by decide),
          dget_scsiErrLog_ok_ne d "accumulated_load_unload_cycles" herr (by decide),
          dget_scsiDefect_ne d _ "accumulated_load_unload_cycles" (by decide)]
        simp only [scsiCycle, hnone]
        rw [dget_scsiPoh_ne d _ "accumulated_load_unload_cycles" (by decide),
          dget_scsiTemp_ne d _ "accumulated_load_unload_cycles" (by decide)]
        rfl
    · intro hnone
      rw [dget_scsiTail_ne d a "grown_defect_list" (by decide) (by decide) (by decide)
          (by decide) (by decide) (by decide) (by decide),
        dget_scsiErrLog_ok_ne d "grown_defect_list" herr (by decide)]
      simp only [scsiDefect, hnone]
      rw [dget_scsiCycle_ne d _ "grown_defect_list" (by decide) (by decide) (by decide)
          (by decide),
        dget_scsiPoh_ne d _ "grown_defect_list" (by decide),
        dget_scsiTemp_ne d _ "grown_defect_list" (by decide)]
      rfl
    · intro hnone op hop suf hsuf
      rw [scsiErrLog, hnone] at herr
      obtain rfl := Except.ok.inj herr
      obtain ⟨k1, k2, k3, k4, k5, k6, k7, k8, k9, k10, k11, k12, k13, k14⟩ :=
        opKey_ne_scalar op hop suf hsuf
      rw [dget_scsiTail_ne d _ (op ++ suf) k8 k9 k10 k11 k12 k13 k14]
      exact dget_scsiInner_ne d (op ++ suf) k1 k2 k3 k4 k5 k6 k7
    · intro hnone
      rw [dget_scsiStatus_ne d _ "pending_defects_count" (by decide),
        dget_scsiExtended_ne d _ "pending_defects_count" (by decide),
        dget_scsiSelfTest1_ne d _ "pending_defects_count" (by decide) (by decide),
        dget_scsiSelfTest0_ne d _ "pending_defects_count" (by decide) (by decide)]
      simp only [scsiPending, hnone]
      rw [dget_scsiErrLog_ok_ne d "pending_defects_count" herr (by decide)]
      exact dget_scsiInner_ne d "pending_defects_count" (by decide) (by decide)
        (by decide) (by decide) (by decide) (by decide) (by decide)
    · intro hnone
      constructor
      · rw [dget_scsiStatus_ne d _ "self_test_0_result" (by decide),
          dget_scsiExtended_ne d _ "self_test_0_result" (by decide),
          dget_scsiSelfTest1_ne d _ "self_test_0_result" (by decide) (by decide)]
        simp only [scsiSelfTest0, hnone]
        rw [dget_scsiPending_ne d _ "self_test_0_result" (by decide),
          dget_scsiErrLog_ok_ne d "self_test_0_result" herr (by decide)]
        exact dget_scsiInner_ne d "self_test_0_result" (by decide) (by decide)
          (by decide) (by decide) (by decide) (by decide) (by decide)
      · rw [dget_scsiStatus_ne d _ "self_test_0_power_on_time" (by decide),
          dget_scsiExtended_ne d _ "self_test_0_power_on_time" (by decide),
          dget_scsiSelfTest1_ne d _ "self_test_0_power_on_time" (by decide) (by decide)]
        simp only [scsiSelfTest0, hnone]
        rw [dget_scsiPending_ne d _ "self_test_0_power_on_time" (by decide),
          dget_scsiErrLog_ok_ne d "self_test_0_power_on_time" herr (by decide)]
        exact dget_scsiInner_ne d "self_test_0_power_on_time" (by decide) (by decide)
          (by decide) (by decide) (by decide) (by decide) (by decide)
    · intro hnone
      constructor
      · rw [dget_scsiStatus_ne d _ "self_test_1_result" (by decide),
          dget_scsiExtended_ne d _ "self_test_1_result" (by decide)]
        simp only [scsiSelfTest1, hnone]
        rw [dget_scsiSelfTest0_ne d _ "self_test_1_result" (by decide) (by decide),
          dget_scsiPending_ne d _ "self_test_1_result" (by decide),
          dget_scsiErrLog_ok_ne d "self_test_1_result" herr (by decide)]
        exact dget_scsiInner_ne d "self_test_1_result" (by decide) (by decide)
          (by decide) (by decide) (by decide) (by decide) (by decide)
      · rw [dget_scsiStatus_ne d _ "self_test_1_power_on_time" (by decide),
          dget_scsiExtended_ne d _ "self_test_1_power_on_time" (by decide)]
        simp only [scsiSelfTest1, hnone]
        rw [dget_scsiSelfTest0_ne d _ "self_test_1_power_on_time" (by decide) (by decide),
          dget_scsiPending_ne d _ "self_test_1_power_on_time" (by decide),
          dget_scsiErrLog_ok_ne d "self_test_1_power_on_time" herr (by decide)]
        exact dget_scsiInner_ne d "self_test_1_power_on_time" (by decide) (by decide)
          (by decide) (by decide) (by decide) (by decide) (by decide)
    · intro hnone
      rw [dget_scsiStatus_ne d _ "extended_self_test_seconds" (by decide)]
      simp only [scsiExtended, hnone]
      rw [dget_scsiSelfTest1_ne d _ "extended_self_test_seconds" (by decide) (by decide),
        dget_scsiSelfTest0_ne d _ "extended_self_test_seconds" (by decide) (by decide),
        dget_scsiPending_ne d _ "extended_self_test_seconds" (by decide),
        dget_scsiErrLog_ok_ne d "extended_self_test_seconds" herr (by decide)]
      exact dget_scsiInner_ne d "extended_self_test_seconds" (by decide) (by decide)
        (by decide) (by decide) (by decide) (by decide) (by decide)
    · intro hnone
      simp only [scsiStatus, hnone]
      rw [dget_scsiExtended_ne d _ "smart_status_passed" (by decide),
        dget_scsiSelfTest1_ne d _ "smart_status_passed" (by decide) (by decide),
        dget_scsiSelfTest0_ne d _ "smart_status_passed" (by decide) (by decide),
        dget_scsiPending_ne d _ "smart_status_passed" (by decide),
        dget_scsiErrLog_ok_ne d "smart_status_passed" herr (by decide)]
      exact dget_scsiInner_ne d "smart_status_passed" (by decide) (by decide)
        (by decide) (by decide) (by decide) (by decide) (by decide)
  · intro d attrs cy hattrs hcy k hk habs
    obtain ⟨a, herr, rfl⟩ := scsiAttrs_decomp d attrs hattrs
    simp only [cycleKeys, List.mem_cons, List.not_mem_nil, or_false] at hk
    rcases hk with rfl | rfl | rfl | rfl
    · rw [dget_scsiTail_ne d a "specified_cycle_count_over_device_lifetime" (by decide)
          (by decide) (by decide) (by decide) (by decide) (by decide) (by decide),
        dget_scsiErrLog_ok_ne d "specified_cycle_count_over_device_lifetime" herr
          (by decide),
        dget_scsiDefect_ne d _ "specified_cycle_count_over_device_lifetime" (by decide)]
      simp only [scsiCycle, hcy]
      rw [dget_dictInsert_ne _ _ (by decide : ("accumulated_load_unload_cycles" : String)
          ≠ "specified_cycle_count_over_device_lifetime"),
        dget_dictInsert_ne _ _
          (by decide : ("specified_load_unload_count_over_device_lifetime" : String)
            ≠ "specified_cycle_count_over_device_lifetime"),
        dget_dictInsert_ne _ _ (by decide : ("accumulated_start_stop_cycles" : String)
          ≠ "specified_cycle_count_over_device_lifetime"),
        dget_dictInsert_self, habs]
      rfl
    · rw [dget_scsiTail_ne d a "accumulated_start_stop_cycles" (by decide) (by decide)
          (by decide) (by decide) (by decide) (by decide) (by decide),
        dget_scsiErrLog_ok_ne d "accumulated_start_stop_cycles" herr (by decide),
        dget_scsiDefect_ne d _ "accumulated_start_stop_cycles" (by decide)]
      simp only [scsiCycle, hcy]
      rw [dget_dictInsert_ne _ _ (by decide : ("accumulated_load_unload_cycles" : String)
          ≠ "accumulated_start_stop_cycles"),
        dget_dictInsert_ne _ _
          (by decide : ("specified_load_unload_count_over_device_lifetime" : String)
            ≠ "accumulated_start_stop_cycles"),
        dget_dictInsert_self, habs]
      rfl
    · rw [dget_scsiTail_ne d a "specified_load_unload_count_over_device_lifetime"
          (by decide) (by decide) (by decide) (by decide) (by decide) (by decide)
          (by decide),
        dget_scsiErrLog_ok_ne d "specified_load_unload_count_over_device_lifetime" herr
          (by decide),
        dget_scsiDefect_ne d _ "specified_load_unload_count_over_device_lifetime"
          (by decide)]
      simp only [scsiCycle, hcy]
      rw [dget_dictInsert_ne _ _ (by decide : ("accumulated_load_unload_cycles" : String)
          ≠ "specified_load_unload_count_over_device_lifetime"),
        dget_dictInsert_self, habs]
      rfl
    · rw [dget_scsiTail_ne d a "accumulated_load_unload_cycles" (by decide) (by decide)
          (by decide) (by decide) (by decide) (by decide) (by decide),
        dget_scsiErrLog_ok_ne d "accumulated_load_unload_cycles" herr (by decide),
        dget_scsiDefect_ne d _ "accumulated_load_unload_cycles" (by decide)]
      simp only [scsiCycle, hcy]
      rw [dget_dictInsert_self, habs]
      rfl
  · intro d attrs log hattrs hlog op hop od hod
    obtain ⟨a, herr, rfl⟩ := scsiAttrs_decomp d attrs hattrs
    rw [scsiErrLog, hlog] at herr
    obtain ⟨a1, h1, herr⟩ := foldE_ok_cons _ _ _ _ _ herr
    obtain ⟨a2, h2, herr⟩ := foldE_ok_cons _ _ _ _ _ herr
    obtain ⟨a3, h3, herr⟩ := foldE_ok_cons _ _ _ _ _ herr
    obtain rfl := Except.ok.inj herr
    simp only [opNames, List.mem_cons, List.not_mem_nil, or_false] at hop
    rcases hop with rfl | rfl | rfl
    · constructor
      · intro p hp habs
        have hp2 := opIntPairs_suffixes p hp
        obtain ⟨_, _, _, _, _, _, _, k8, k9, k10, k11, k12, k13, k14⟩ :=
          opKey_ne_scalar "read" (by decide) p.2 hp2
        rw [dget_scsiTail_ne d _ ("read" ++ p.2) k8 k9 k10 k11 k12 k13 k14,
          dget_scsiOp_ok_ne h3 ("read" ++ p.2)
            (fun t ht => ops_cross_ne "verify" (by decide) "read" (by decide)
              (by decide) t ht p.2 hp2),
          dget_scsiOp_ok_ne h2 ("read" ++ p.2)
            (fun t ht => ops_cross_ne "write" (by decide) "read" (by decide)
              (by decide) t ht p.2 hp2),
          scsiOp_ok_present h1 hod, dget_opBlock_int "read" od _ p hp, habs]
        rfl
      · intro hgig
        obtain ⟨_, _, _, _, _, _, _, k8, k9, k10, k11, k12, k13, k14⟩ :=
          opKey_ne_scalar "read" (by decide) "_gigabytes_processed" (by decide)
        rw [dget_scsiTail_ne d _ ("read" ++ "_gigabytes_processed") k8 k9 k10 k11 k12
            k13 k14,
          dget_scsiOp_ok_ne h3 ("read" ++ "_gigabytes_processed")
            (fun t ht => ops_cross_ne "verify" (by decide) "read" (by decide)
              (by decide) t ht "_gigabytes_processed" (by decide)),
          dget_scsiOp_ok_ne h2 ("read" ++ "_gigabytes_processed")
            (fun t ht => ops_cross_ne "write" (by decide) "read" (by decide)
              (by decide) t ht "_gigabytes_processed" (by decide)),
          scsiOp_ok_present h1 hod, dget_opBlock_gig, hgig]
        rfl
    · constructor
      · intro p hp habs
        have hp2 := opIntPairs_suffixes p hp
        obtain ⟨_, _, _, _, _, _, _, k8, k9, k10, k11, k12, k13, k14⟩ :=
          opKey_ne_scalar "write" (by decide) p.2 hp2
        rw [dget_scsiTail_ne d _ ("write" ++ p.2) k8 k9 k10 k11 k12 k13 k14,
          dget_scsiOp_ok_ne h3 ("write" ++ p.2)
            (fun t ht => ops_cross_ne "verify" (by decide) "write" (by decide)
              (by decide) t ht p.2 hp2),
          scsiOp_ok_present h2 hod, dget_opBlock_int "write" od _ p hp, habs]
        rfl
      · intro hgig
        obtain ⟨_, _, _, _, _, _, _, k8, k9, k10, k11, k12, k13, k14⟩ :=
          opKey_ne_scalar "write" (by decide) "_gigabytes_processed" (by decide)
        rw [dget_scsiTail_ne d _ ("write" ++ "_gigabytes_processed") k8 k9 k10 k11 k12
            k13 k14,
          dget_scsiOp_ok_ne h3 ("write" ++ "_gigabytes_processed")
            (fun t ht => ops_cross_ne "verify" (by decide) "write" (by decide)
              (by decide) t ht "_gigabytes_processed" (by decide)),
          scsiOp_ok_present h2 hod, dget_opBlock_gig, hgig]
        rfl
    · constructor
      · intro p hp habs
        have hp2 := opIntPairs_suffixes p hp
        obtain ⟨_, _, _, _, _, _, _, k8, k9, k10, k11, k12, k13, k14⟩ :=
          opKey_ne_scalar "verify" (by decide) p.2 hp2
        rw [dget_scsiTail_ne d _ ("verify" ++ p.2) k8 k9 k10 k11 k12 k13 k14,
          scsiOp_ok_present h3 hod, dget_opBlock_int "verify" od _ p hp, habs]
        rfl
      · intro hgig
        obtain ⟨_, _, _, _, _, _, _, k8, k9, k10, k11, k12, k13, k14⟩ :=
          opKey_ne_scalar "verify" (by decide) "_gigabytes_processed" (by decide)
        rw [dget_scsiTail_ne d _ ("verify" ++ "_gigabytes_processed") k8 k9 k10 k11 k12
            k13 k14,
          scsiOp_ok_present h3 hod, dget_opBlock_gig, hgig]
        rfl
  · intro decode raw d e hdec herr
    simp only [parse_smartctl_scsi, hdec, herr]

/-- A SCSI report whose error-counter log contains a present but empty
`read` object: every subfield is absent. -/
def scsiDefaulted : ScsiData :=
  { serial_number := none, temperature := none, power_on_time := none,
    scsi_start_stop_cycle_counter := none, scsi_grown_defect_list := none,
    scsi_error_counter_log := some [("read", { ints := [], gigabytes_processed := none })],
    scsi_pending_defects := none, scsi_self_test_0 := none, scsi_self_test_1 := none,
    scsi_extended_self_test_seconds := none, smart_status := none }

/-- C8 counterexample: the `read` error-counter object is present but its
subfields are all absent, yet the decoder emits every one of them with a
default value — absent listed fields producing attributes. -/
theorem C8_default_counterexample :
    dget ([("read", ({ ints := [], gigabytes_processed := none } : OpData))] :
        List (String × OpData)) "read" =
      some { ints := [], gigabytes_processed := none } ∧
    dget ({ ints := [], gigabytes_processed := none } : OpData).ints
      "total_errors_corrected" = none ∧
    scsiAttrs scsiDefaulted = .ok
      [("read_errors_corrected_by_eccfast", .i 0),
       ("read_errors_corrected_by_eccdelayed", .i 0),
       ("read_errors_corrected_by_rereads_rewrites", .i 0),
       ("read_total_errors_corrected", .i 0),
       ("read_correction_algorithm_invocations", .i 0),
       ("read_gigabytes_processed", .f "0"),
       ("read_total_uncorrected_errors", .i 0)] ∧
    dget [(("read_total_errors_corrected" : String), SVal.i 0)]
      "read_total_errors_corrected" = some (.i 0) := by
  refine ⟨by decide, by decide, by decide, by decide⟩

/-- A SCSI report exercising each branch of the amended claim: absent
temperature, a cycle-counter group missing three subfields, a `read`
error-counter object with every subfield absent. -/
def scsiSample : ScsiData :=
  { serial_number := some "WAF123XYZ", temperature := none,
    power_on_time := some 10000,
    scsi_start_stop_cycle_counter := some [("accumulated_start_stop_cycles", 42)],
    scsi_grown_defect_list := none,
    scsi_error_counter_log := some [("read", { ints := [], gigabytes_processed := none })],
    scsi_pending_defects := none, scsi_self_test_0 := none, scsi_self_test_1 := none,
    scsi_extended_self_test_seconds := none, smart_status := none }

/-- The attribute dict `scsiSample` decodes to. -/
def scsiSampleAttrs : List (String × SVal) :=
  [("power_on_hours", .i 10000),
   ("specified_cycle_count_over_device_lifetime", .i 0),
   ("accumulated_start_stop_cycles", .i 42),
   ("specified_load_unload_count_over_device_lifetime", .i 0),
   ("accumulated_load_unload_cycles", .i 0),
   ("read_errors_corrected_by_eccfast", .i 0),
   ("read_errors_corrected_by_eccdelayed", .i 0),
   ("read_errors_corrected_by_rereads_rewrites", .i 0),
   ("read_total_errors_corrected", .i 0),
   ("read_correction_algorithm_invocations", .i 0),
   ("read_gigabytes_processed", .f "0"),
   ("read_total_uncorrected_errors", .i 0)]

/-- A SCSI report whose `read` object carries a `gigabytes_processed`
string that `float()` cannot parse. -/
def scsiBadFloat : ScsiData :=
  { serial_number := some "WAF123XYZ", temperature := some 30, power_on_time := none,
    scsi_start_stop_cycle_counter := none, scsi_grown_defect_list := none,
    scsi_error_counter_log :=
      some [("read", { ints := [], gigabytes_processed := some "n/a" })],
    scsi_pending_defects := none, scsi_self_test_0 := none, scsi_self_test_1 := none,
    scsi_extended_self_test_seconds := none, smart_status := none }

/-- C8 witness: on concrete reports, an absent NVMe field and an absent
SCSI top-level field emit nothing, absent subfields of present groups
are defaulted, and a non-numeric `gigabytes_processed` discards the
whole mapping. -/
theorem C8_optional_fields_witness :
    dget nvmeSample.smart_log "temperature" = none ∧
    dget (nvmeAttrs nvmeSample) "temperature_celsius" = none ∧
    scsiAttrs scsiSample = .ok scsiSampleAttrs ∧
    dget scsiSampleAttrs "temperature_celsius" = none ∧
    dget scsiSampleAttrs "specified_cycle_count_over_device_lifetime" = some (.i 0) ∧
    dget scsiSampleAttrs ("read" ++ "_total_errors_corrected") = some (.i 0) ∧
    dget scsiSampleAttrs ("read" ++ "_gigabytes_processed") = some (.f "0") ∧
    scsiAttrs scsiBadFloat = .error "ValueError: could not convert string to float" ∧
    parse_smartctl_scsi (.ok "smartctl json output")
      (fun _ => .ok scsiBadFloat) = .ok ([], "unknown") := by
  have hattrs : scsiAttrs scsiSample = .ok scsiSampleAttrs := by decide
  refine ⟨by decide, ?_, hattrs, ?_, ?_, ?_, ?_, by decide, ?_⟩
  · exact C8_optional_fields.1 nvmeSample ("temperature", "temperature_celsius")
      (by decide) (by decide)
  · exact (C8_optional_fields.2.1 scsiSample scsiSampleAttrs hattrs).1 rfl
  · exact C8_optional_fields.2.2.1 scsiSample scsiSampleAttrs
      [("accumulated_start_stop_cycles", 42)] hattrs rfl
      "specified_cycle_count_over_device_lifetime" (by decide) (by decide)
  · exact (C8_optional_fields.2.2.2.1 scsiSample scsiSampleAttrs
      [("read", { ints := [], gigabytes_processed := none })] hattrs rfl
      "read" (by decide) { ints := [], gigabytes_processed := none } (by decide)).1
      ("total_errors_corrected", "_total_errors_corrected") (by decide) (by decide)
  · exact (C8_optional_fields.2.2.2.1 scsiSample scsiSampleAttrs
      [("read", { ints := [], gigabytes_processed := none })] hattrs rfl
      "read" (by decide) { ints := [], gigabytes_processed := none } (by decide)).2 rfl
  · exact C8_optional_fields.2.2.2.2 (fun _ => .ok scsiBadFloat)
      "smartctl json output" scsiBadFloat
      "ValueError: could not convert string to float" rfl (by decide)

/-! ### Topology collection, metric emission and the request route
(`main`, `handle_common_controller`, `handle_megaraid_controller`,
`create_metrics_of_physical_drive`, `metrics_route`; src/main.py lines
291-382 and 449-472)

Remote calls are a `World`: the topology fetch
(`get_perccli_json("/cALL show all J")`) and the per-drive SMART fetch
(`get_perccli_smart`, returning the extracted hex block; its regex
extraction never raises and yields `""` on no match, so only the
`_run_perccli_command` failure is an `Except.error`).  Metric records
carry the gauge name, its label pairs and the numeric value. -/

structure Metric where
  name : String
  labels : List (String × String)
  value : Int
deriving DecidableEq, Repr

structure PD where
  /-- `"EID:Slt"`. -/
  eidSlt : Option String
  /-- `"State"`. -/
  state : Option String
  /-- `"Temp"`. -/
  temp : Option String
deriving DecidableEq, Repr

structure VD where
  /-- `"DG/VD"`. -/
  dgVd : Option String
  /-- `"State"`. -/
  state : Option String
deriving DecidableEq, Repr

structure CtrlResponse where
  /-- `Basics.Controller` as the label string it becomes (default `"Unknown"`). -/
  ctrl : String
  model : Option String
  serial : Option String
  fw : Option String
  /-- `Status."Controller Status"`. -/
  status : Option String
  /-- `HwCfg."ROC temperature(Degree Celcius)"` (the first spelling probed). -/
  rocTempCelcius : Option Int
  /-- `HwCfg."ROC temperature(Degree Celsius)"`. -/
  rocTempCelsius : Option Int
  /-- `Version."Driver Name"`. -/
  driverName : Option String
  pdList : List PD
  vdList : List VD
  /-- `Status."BBU Status"`; `none` models `"NA"` or absent. -/
  bbuStatus : Option Int

structure World where
  topology : Except String (List CtrlResponse)
  smartFetch : String → Except String String

/-- Python `str.split(sep)` for a one-character separator. -/
def splitChars (sep : Char) : List Char → List (List Char)
  | [] => [[]]
  | c :: rest =>
    match splitChars sep rest with
    | [] => [[c]]
    | g :: gs => if c = sep then [] :: g :: gs else (c :: g) :: gs

/-- The unpacking `a, b = s.split(sep)[:2]`: `ValueError` when fewer than
two fields. -/
def splitTwo (sep : Char) (s : String) : Except String (String × String) :=
  match splitChars sep s.data with
  | a :: b :: _ => .ok (String.mk a, String.mk b)
  | _ => .error "ValueError: not enough values to unpack"

/-- `s.replace("C", "")`. -/
def stripC (s : String) : String := String.mk (s.data.filter (fun c => c ≠ 'C'))

def digitsVal : List Char → Nat → Option Nat
  | [], acc => some acc
  | c :: r, acc => if c.isDigit then digitsVal r (acc * 10 + (c.toNat - 48)) else none

/-- Python `int(str)` on the decimal strings the exporter feeds it:
optional surrounding whitespace, optional sign, then digits; anything
else raises `ValueError` (here `none`). -/
def pyInt (s : String) : Option Int :=
  match ((s.data.dropWhile Char.isWhitespace).reverse.dropWhile Char.isWhitespace).reverse with
  | [] => none
  | '-' :: r => if r.isEmpty then none else (digitsVal r 0).map (fun n => -(n : Int))
  | '+' :: r => if r.isEmpty then none else (digitsVal r 0).map (fun n => (n : Int))
  | r => (digitsVal r 0).map (fun n => (n : Int))

/-- `1 if ... == "Optimal" else 0` (src/main.py line 341), applied to
every controller regardless of driver family. -/
def controllerStatusValue (st : Option String) : Int :=
  if st = some "Optimal" then 1 else 0

def controllerStatusMetric (r : CtrlResponse) : Metric :=
  Metric.mk "megaraid_controller_status" [("controller", r.ctrl)]
    (controllerStatusValue r.status)

/-- `PercMetrics.handle_common_controller` (src/main.py lines 330-347). -/
def handle_common_controller (r : CtrlResponse) : List Metric :=
  [Metric.mk "megaraid_controller_info"
     [("controller", r.ctrl), ("model", r.model.getD "Unknown"),
      ("serial", r.serial.getD "Unknown"), ("fwversion", r.fw.getD "Unknown")] 1,
   controllerStatusMetric r] ++
  (match r.rocTempCelcius with
   | some t => [Metric.mk "megaraid_controller_temperature" [("controller", r.ctrl)] t]
   | none =>
     match r.rocTempCelsius with
     | some t => [Metric.mk "megaraid_controller_temperature" [("controller", r.ctrl)] t]
     | none => [])

def driveId (ctrl e s : String) : String :=
  "Drive /c" ++ ctrl ++ "/e" ++ e ++ "/s" ++ s

def pdStatusValue (pd : PD) : Int := if pd.state.getD "Unknown" = "Onln" then 1 else 0

/-- `PercMetrics.create_metrics_of_physical_drive` (src/main.py lines
369-382): status gauge, optional temperature gauge (unparsable
temperature text is skipped), then one SMART gauge per decoded
attribute in dict order. -/
def pdDriveMetrics (pd : PD) (ctrl e s : String) (smart : List (String × Nat)) :
    List Metric :=
  [Metric.mk "megaraid_drive_status"
     [("controller", ctrl), ("drive", driveId ctrl e s)] (pdStatusValue pd)] ++
  (match pd.temp with
   | some t =>
     match pyInt (stripC t) with
     | some n => [Metric.mk "megaraid_drive_temp"
         [("controller", ctrl), ("drive", driveId ctrl e s)] n]
     | none => []
   | none => []) ++
  smart.map (fun kv => Metric.mk "megaraid_drive_smart"
    [("controller", ctrl), ("drive", driveId ctrl e s), ("attribute", kv.1)]
    (kv.2 : Int))

def create_metrics_of_physical_drive (pd : PD) (ctrl : String)
    (smart : List (String × Nat)) : Except String (List Metric) :=
  match splitTwo ':' (pd.eidSlt.getD "0:0") with
  | .error e => .error e
  | .ok (e, s) => .ok (pdDriveMetrics pd ctrl e s smart)

/-- One iteration of the physical-drive loop of
`handle_megaraid_controller` (src/main.py lines 351-357): split the
enclosure:slot, fetch the drive's SMART dump (a raised `RuntimeError`
propagates), decode it, emit the drive's metrics. -/
def pdStep (w : World) (r : CtrlResponse) (acc : List Metric) (pd : PD) :
    Except String (List Metric) :=
  match splitTwo ':' (pd.eidSlt.getD "0:0") with
  | .error e => .error e
  | .ok (e, s) =>
    match w.smartFetch ("/c" ++ r.ctrl ++ "/e" ++ e ++ "/s" ++ s) with
    | .error err => .error err
    | .ok raw =>
      match create_metrics_of_physical_drive pd r.ctrl (parse_smart_data raw) with
      | .error err => .error err
      | .ok ms => .ok (acc ++ ms)

/-- One iteration of the virtual-drive loop (src/main.py lines 358-363). -/
def vdStep (r : CtrlResponse) (acc : List Metric) (vd : VD) :
    Except String (List Metric) :=
  match splitTwo '/' (vd.dgVd.getD "0/0") with
  | .error e => .error e
  | .ok (dg, vg) =>
    .ok (acc ++ [Metric.mk "megaraid_virtual_drive_status"
      [("controller", r.ctrl), ("vd", "DG" ++ dg ++ "/VD" ++ vg)]
      (if vd.state.getD "Unknown" = "Optl" then 1 else 0)])

/-- BBU health (src/main.py lines 364-367). -/
def bbuMetrics (r : CtrlResponse) : List Metric :=
  match r.bbuStatus with
  | none => []
  | some c => [Metric.mk "megaraid_bbu_health" [("controller", r.ctrl)]
      (if c = 0 ∨ c = 8 ∨ c = 4096 then 1 else 0)]

/-- `PercMetrics.handle_megaraid_controller` (src/main.py lines 349-367). -/
def handle_megaraid_controller (w : World) (r : CtrlResponse) :
    Except String (List Metric) :=
  match foldE (pdStep w r) [] r.pdList with
  | .error e => .error e
  | .ok pdMs =>
    match foldE (vdStep r) [] r.vdList with
    | .error e => .error e
    | .ok vdMs => .ok (pdMs ++ vdMs ++ bbuMetrics r)

/-- `driver_name in ["megaraid_sas", "lsi-mr3"]`. -/
def isMegaraidDriver (r : CtrlResponse) : Bool :=
  (r.driverName.getD "Unknown" == "megaraid_sas") ||
    (r.driverName.getD "Unknown" == "lsi-mr3")

/-- Per-controller processing in `main` (src/main.py lines 300-312):
common metrics always, drive/VD enumeration only for the megaraid
family; a raised exception propagates. -/
def ctrlStep (w : World) (acc : List Metric) (r : CtrlResponse) :
    Except String (List Metric) :=
  if isMegaraidDriver r then
    match handle_megaraid_controller w r with
    | .error e => .error e
    | .ok ms => .ok (acc ++ handle_common_controller r ++ ms)
  else .ok (acc ++ handle_common_controller r)

/-- `PercMetrics.main` through the controller loop (src/main.py lines
291-312): the topology fetch is fatal, then each controller is
processed in turn.  The subsequent extra-device discovery phase is
modelled separately by `parse_smartctl_nvme` / `parse_smartctl_scsi`. -/
def percMain (w : World) : Except String (List Metric) :=
  match w.topology with
  | .error e => .error e
  | .ok ctrls => foldE (ctrlStep w) [] ctrls

structure TargetCfg where
  username : String
  password : String
deriving DecidableEq, Repr

inductive HttpResp
  | err : Nat → String → HttpResp
  | ok : List Metric → HttpResp
deriving DecidableEq, Repr

/-- The `/metrics` route (src/main.py lines 449-472): missing or empty
target → 400; unconfigured target → 400; otherwise run the collection,
turning a raised error into a 500. -/
def metrics_route (target : Option String) (cfg : List (String × TargetCfg))
    (w : World) : HttpResp :=
  match target with
  | none => .err 400 "Parameter 'target' is missing."
  | some t =>
    if t = "" then .err 400 "Parameter 'target' is missing."
    else if (dget cfg t).isSome then
      match percMain w with
      | .ok ms => .ok ms
      | .error e => .err 500 ("Error generating metrics for target " ++ t ++ ": " ++ e)
    else .err 400 ("Invalid target '" ++ t ++ "'")

/-! ### Claims about collection flow, controller status and the route -/

/-- The drive's enclosure:slot splits and its SMART fetch round trip
succeeds (contents arbitrary). -/
def pdReady (w : World) (r : CtrlResponse) (pd : PD) : Bool :=
  match splitTwo ':' (pd.eidSlt.getD "0:0") with
  | .error _ => false
  | .ok (e, s) =>
    match w.smartFetch ("/c" ++ r.ctrl ++ "/e" ++ e ++ "/s" ++ s) with
    | .error _ => false
    | .ok _ => true

def vdReady (vd : VD) : Bool :=
  match splitTwo '/' (vd.dgVd.getD "0/0") with
  | .error _ => false
  | .ok _ => true

theorem pdFold_ok (w : World) (r : CtrlResponse) :
    ∀ (pds : List PD) (acc : List Metric), (∀ pd ∈ pds, pdReady w r pd = true) →
    ∃ ms, foldE (pdStep w r) acc pds = .ok ms ∧ (∀ x ∈ acc, x ∈ ms) ∧
      (∀ pd ∈ pds, ∀ e s, splitTwo ':' (pd.eidSlt.getD "0:0") = .ok (e, s) →
        Metric.mk "megaraid_drive_status"
          [("controller", r.ctrl), ("drive", driveId r.ctrl e s)]
          (pdStatusValue pd) ∈ ms)
  | [], acc, _ => ⟨acc, rfl, fun _ h => h, by simp⟩
  | pd :: rest, acc, hready => by
    have hr := hready pd (by simp)
    rw [pdReady] at hr
    rcases hsp : splitTwo ':' (pd.eidSlt.getD "0:0") with e0 | es
    · rw [hsp] at hr; simp at hr
    · obtain ⟨e, s⟩ := es
      rw [hsp] at hr
      rcases hf : w.smartFetch ("/c" ++ r.ctrl ++ "/e" ++ e ++ "/s" ++ s)
          with e0 | raw
      · simp [hf] at hr
      · have hstep : pdStep w r acc pd =
            .ok (acc ++ pdDriveMetrics pd r.ctrl e s (parse_smart_data raw)) := by
          simp only [pdStep, hsp, hf, create_metrics_of_physical_drive]
        obtain ⟨ms, heq, hsub, hrest⟩ := pdFold_ok w r rest
          (acc ++ pdDriveMetrics pd r.ctrl e s (parse_smart_data raw))
          (fun pd' h' => hready pd' (by simp [h']))
        refine ⟨ms, ?_, ?_, ?_⟩
        · rw [foldE, hstep]
          exact heq
        · intro x hx
          exact hsub x (by simp [hx])
        · intro pd' hpd' e' s' hsp'
          rcases List.mem_cons.mp hpd' with hpd' | hpd'
          · subst hpd'
            rw [hsp] at hsp'
            have hes := Except.ok.inj hsp'
            have he : e = e' := congrArg Prod.fst hes
            have hs : s = s' := congrArg Prod.snd hes
            subst he; subst hs
            refine hsub _ ?_
            simp [pdDriveMetrics]
          · exact hrest pd' hpd' e' s' hsp'

theorem vdFold_ok (r : CtrlResponse) :
    ∀ (vds : List VD) (acc : List Metric), (∀ vd ∈ vds, vdReady vd = true) →
    ∃ ms, foldE (vdStep r) acc vds = .ok ms
  | [], acc, _ => ⟨acc, rfl⟩
  | vd :: rest, acc, hready => by
    have hr := hready vd (by simp)
    rw [vdReady] at hr
    rcases hsp : splitTwo '/' (vd.dgVd.getD "0/0") with e0 | dv
    · rw [hsp] at hr; simp at hr
    · obtain ⟨dg, vg⟩ := dv
      obtain ⟨ms, heq⟩ := vdFold_ok r rest _ (fun vd' h' => hready vd' (by simp [h']))
      refine ⟨ms, ?_⟩
      rw [foldE, vdStep, hsp]
      exact heq

/-- C1 (amended): a drive whose SMART hex fails to decode (any fetched
contents, including garbage or the empty extraction) is non-fatal — the
megaraid handler succeeds and still emits every drive's status metric —
while a failed topology fetch aborts the whole request; a failed
per-drive SMART fetch also aborts it (see the counterexample). -/
theorem C1_per_drive :
    (∀ (w : World) (e : String), w.topology = .error e → percMain w = .error e) ∧
    (∀ (w : World) (r : CtrlResponse),
      (∀ pd ∈ r.pdList, pdReady w r pd = true) →
      (∀ vd ∈ r.vdList, vdReady vd = true) →
      ∃ ms, handle_megaraid_controller w r = .ok ms ∧
        ∀ pd ∈ r.pdList, ∀ e s, splitTwo ':' (pd.eidSlt.getD "0:0") = .ok (e, s) →
          Metric.mk "megaraid_drive_status"
            [("controller", r.ctrl), ("drive", driveId r.ctrl e s)]
            (pdStatusValue pd) ∈ ms) := by
  constructor
  · intro w e h
    rw [percMain, h]
  · intro w r hpd hvd
    obtain ⟨pdMs, hpdeq, _, hmem⟩ := pdFold_ok w r r.pdList [] hpd
    obtain ⟨vdMs, hvdeq⟩ := vdFold_ok r r.vdList [] hvd
    refine ⟨pdMs ++ vdMs ++ bbuMetrics r, ?_, ?_⟩
    · rw [handle_megaraid_controller, hpdeq, hvdeq]
    · intro pd hp e s hsp
      exact List.mem_append_left _ (List.mem_append_left _ (hmem pd hp e s hsp))

def pdA : PD := { eidSlt := some "32:1", state := some "Onln", temp := none }

def pdB : PD := { eidSlt := some "32:2", state := some "Onln", temp := none }

def ctrl0 : CtrlResponse :=
  { ctrl := "0", model := some "PERC H740P Mini", serial := some "S0123",
    fw := some "51.16.0-4076", status := some "Optimal",
    rocTempCelcius := none, rocTempCelsius := none,
    driverName := some "megaraid_sas", pdList := [pdA, pdB], vdList := [],
    bbuStatus := none }

/-- A world whose second drive's SMART fetch round trip fails. -/
def wDrive2Fails : World :=
  { topology := .ok [ctrl0],
    smartFetch := fun p => if p = "/c0/e32/s1" then .ok ""
      else .error "perccli failed: connection reset" }

/-- The same topology with every SMART fetch succeeding (empty hex). -/
def wAllFetchOk : World :=
  { topology := .ok [ctrl0], smartFetch := fun _ => .ok "" }

/-- A world whose topology fetch fails. -/
def wTopoErr : World :=
  { topology := .error "perccli failed: ssh: connect refused",
    smartFetch := fun _ => .ok "" }

/-- A world whose SMART fetches succeed but return text with no decodable
hex block. -/
def wGarbageHex : World :=
  { topology := .ok [ctrl0], smartFetch := fun _ => .ok "no smart data found" }

/-- C1 counterexample: with drive 1's fetch succeeding and drive 2's
fetch failing, the whole request errors out — drive 1's already-collected
metrics are discarded — although the identical topology with both fetches
succeeding produces drive 1's and drive 2's metrics. -/
theorem C1_fetch_abort_counterexample :
    percMain wDrive2Fails = .error "perccli failed: connection reset" ∧
    wDrive2Fails.smartFetch "/c0/e32/s1" = .ok "" ∧
    percMain wAllFetchOk = .ok
      [Metric.mk "megaraid_controller_info"
         [("controller", "0"), ("model", "PERC H740P Mini"), ("serial", "S0123"),
          ("fwversion", "51.16.0-4076")] 1,
       Metric.mk "megaraid_controller_status" [("controller", "0")] 1,
       Metric.mk "megaraid_drive_status"
         [("controller", "0"), ("drive", "Drive /c0/e32/s1")] 1,
       Metric.mk "megaraid_drive_status"
         [("controller", "0"), ("drive", "Drive /c0/e32/s2")] 1] := by
  refine ⟨by decide, by decide, by decide⟩

/-- C1 witness: the topology-failure branch, and the amended per-drive
branch on a world whose SMART text holds no decodable hex. -/
theorem C1_per_drive_witness :
    percMain wTopoErr = .error "perccli failed: ssh: connect refused" ∧
    (∃ ms, handle_megaraid_controller wGarbageHex ctrl0 = .ok ms ∧
      ∀ pd ∈ ctrl0.pdList, ∀ e s, splitTwo ':' (pd.eidSlt.getD "0:0") = .ok (e, s) →
        Metric.mk "megaraid_drive_status"
          [("controller", ctrl0.ctrl), ("drive", driveId ctrl0.ctrl e s)]
          (pdStatusValue pd) ∈ ms) := by
  exact ⟨C1_per_drive.1 wTopoErr _ rfl,
    C1_per_drive.2 wGarbageHex ctrl0 (by decide) (by decide)⟩

/-- C7 (amended): the controller-status metric is computed identically
for every controller, whatever the driver family: 1 exactly when the
status text is `"Optimal"`, 0 for any other value (including `"OK"`). -/
theorem C7_controller_status (r : CtrlResponse) :
    controllerStatusMetric r ∈ handle_common_controller r ∧
    (controllerStatusValue r.status = 1 ↔ r.status = some "Optimal") := by
  constructor
  · exact List.mem_append_left _ (by simp)
  · rw [controllerStatusValue]
    by_cases h : r.status = some "Optimal" <;> simp [h]

/-- C7 counterexample: a SAS controller reporting `"OK"` is emitted as 0,
where the claim demands 1; only `"Optimal"` yields 1. -/
theorem C7_sas_ok_counterexample :
    controllerStatusValue (some "OK") = 0 ∧
    controllerStatusValue (some "Optimal") = 1 := by decide

/-- C9: a missing target, or one absent from the configured mapping,
yields HTTP 400, and the response is independent of the remote world —
no remote command's outcome can influence it, because none is issued. -/
theorem C9_unknown_target (target : Option String)
    (cfg : List (String × TargetCfg)) (w w' : World)
    (h : target = none ∨ ∀ t, target = some t → dget cfg t = none) :
    metrics_route target cfg w = metrics_route target cfg w' ∧
    ∃ m, metrics_route target cfg w = .err 400 m := by
  cases target with
  | none => exact ⟨rfl, _, rfl⟩
  | some t =>
    by_cases ht : t = ""
    · subst ht
      constructor
      · simp [metrics_route]
      · exact ⟨"Parameter 'target' is missing.", by simp [metrics_route]⟩
    · have hcfg : dget cfg t = none := by
        rcases h with h | h
        · exact absurd h (by simp)
        · exact h t rfl
      constructor
      · simp [metrics_route, ht, hcfg]
      · exact ⟨"Invalid target '" ++ t ++ "'", by simp [metrics_route, ht, hcfg]⟩

/-- C9 witness: target `esx2` is not in a configuration holding only
`esx1`; the route answers 400 whether the remote world would succeed or
fail. -/
theorem C9_unknown_target_witness :
    dget ([("esx1", TargetCfg.mk "root" "secret")] : List (String × TargetCfg))
      "esx2" = none ∧
    metrics_route (some "esx2") [("esx1", TargetCfg.mk "root" "secret")] wAllFetchOk =
      metrics_route (some "esx2") [("esx1", TargetCfg.mk "root" "secret")] wTopoErr ∧
    ∃ m, metrics_route (some "esx2") [("esx1", TargetCfg.mk "root" "secret")]
      wAllFetchOk = .err 400 m := by
  have h := C9_unknown_target (some "esx2") [("esx1", TargetCfg.mk "root" "secret")]
    wAllFetchOk wTopoErr (Or.inr (fun t ht => by cases ht; decide))
  exact ⟨by decide, h.1, h.2⟩

end Esxi
